import Mathlib

/-!
Verification of the NSIM payment-network middleware core against its design
specification.  The definitions below are a shallow embedding of the
TypeScript sources: `src/services/payment.ts` (PaymentService),
`src/services/bsim-client.ts` (BsimClient / makeRequest / isRetryableError),
`src/services/bsim-registry.ts` (BsimRegistry.extractBsimIdFromToken),
`src/services/webhook.ts` + `src/queue/webhook-queue.ts` (webhook raising and
the durable queue), and `src/queue/expiry-scheduler.ts` (the expiry sweep).

Modelling conventions:
* JS `Date` values and ISO timestamps are integers (milliseconds).
* Monetary amounts are `Int` (the TS code does unchecked `number` arithmetic).
* A call into the Bsim client that may either return a value or throw is an
  explicit `ClientOutcome`; `thrown` models a JS exception escaping the call.
* `Buffer.from(..., 'base64')` + `JSON.parse` on a token segment is an
  external Node decoding step, passed in as an oracle
  `decode : String -> Option JwtPayload`; `none` models a decoding failure.
* The JS `Map` backing the transaction store is an association list in
  insertion order; `storeSet` replaces the entry for an existing key.
* Raising a webhook notification is recorded as the event type appended to an
  event trace; actual HTTP delivery is outside the embedded core.
-/

namespace NSim

/-- Payment status enum from `src/types/payment.ts`. -/
inductive PaymentStatus where
  | pending
  | authorized
  | captured
  | voided
  | refunded
  | declined
  | expired
  | failed
deriving DecidableEq, Repr

/-- Webhook event types from `src/types/webhook.ts`. -/
inductive WebhookEventType where
  | paymentAuthorized
  | paymentCaptured
  | paymentVoided
  | paymentRefunded
  | paymentDeclined
  | paymentExpired
  | paymentFailed
deriving DecidableEq, Repr

/-- The central transaction entity (`PaymentTransaction` in `src/types/payment.ts`). -/
structure PaymentTransaction where
  id : String
  merchantId : String
  merchantName : String
  orderId : String
  cardToken : String
  amount : Int
  currency : String
  status : PaymentStatus
  authorizationCode : Option String
  capturedAmount : Int
  refundedAmount : Int
  description : Option String
  declineReason : Option String
  createdAt : Int
  updatedAt : Int
  expiresAt : Option Int
  bsimId : Option String
deriving DecidableEq, Repr

/-- The in-memory transaction store (`const transactions = new Map<string, PaymentTransaction>()`):
an association list in insertion order with JS `Map` semantics. -/
abbrev Store := List (String × PaymentTransaction)

/-- `transactions.get(id)`. -/
def findById (store : Store) (id : String) : Option PaymentTransaction :=
  (store.find? (fun p => p.1 = id)).map Prod.snd

/-- `transactions.set(id, tx)`: replace the entry for an existing key, else append. -/
def storeSet : Store → String → PaymentTransaction → Store
  | [], k, v => [(k, v)]
  | (k', v') :: rest, k, v =>
      if k' = k then (k, v) :: rest else (k', v') :: storeSet rest k v

/-! ### Token analysis and issuer routing
(`analyzeCardToken` in `src/services/payment.ts`, `extractBsimIdFromToken`
in `src/services/bsim-registry.ts`). -/

/-- A character admitted by the regex class `[a-z0-9]`. -/
def wsimCharOk (c : Char) : Bool :=
  ('a' ≤ c && c ≤ 'z') || ('0' ≤ c && c ≤ '9')

/-- A character admitted by the regex class `[a-z_]`. -/
def lowerUnderscoreOk (c : Char) : Bool :=
  ('a' ≤ c && c ≤ 'z') || c = '_'

/-- Match of the anchored regex `^wsim_([a-z0-9]+)_` on a character list:
after the literal `wsim_`, a nonempty greedy run of `[a-z0-9]` that must be
followed by `_`.  (Backtracking cannot shorten the run, because every
character inside the run fails to be the required `_`.)  Returns the captured
run. -/
def wsimMatchList (cs : List Char) : Option (List Char) :=
  match cs with
  | 'w' :: 's' :: 'i' :: 'm' :: '_' :: rest =>
      if (rest.takeWhile wsimCharOk).isEmpty then none
      else if (rest.dropWhile wsimCharOk).head? = some '_' then
        some (rest.takeWhile wsimCharOk)
      else none
  | _ => none

/-- `cardToken.match(/^(wsim_([a-z0-9]+)_)/)`, returning the inner capture
(the embedded issuer instance id). -/
def wsimMatch (token : String) : Option String :=
  (wsimMatchList token.data).map (fun run => String.mk run)

/-- Match of the anchored regex `^([a-z_]+_)` on a token: the longest prefix
made of `[a-z_]` characters that ends in `_` (greedy run, then backtrack to
the last `_` inside the run). -/
def prefixMatchLower (token : String) : Option String :=
  let run := token.data.takeWhile lowerUnderscoreOk
  let kept := (run.reverse.dropWhile (fun c => !(c = '_'))).reverse
  if kept.isEmpty then none else some (String.mk kept)

/-- JS truthiness of an optional string (`undefined`/`null` and `""` are falsy). -/
def truthyS : Option String → Bool
  | some s => !(s = "")
  | none => false

/-- `o || d` where `o` is an optional string and `d` the fallback. -/
def truthyOr (o : Option String) (d : String) : String :=
  match o with
  | some s => if s = "" then d else s
  | none => d

/-- `o || null`: an optional string with falsy values collapsed to `none`. -/
def truthyOpt : Option String → Option String
  | some s => if s = "" then none else some s
  | none => none

/-- JS `s.split('.')` on the character level (single-character separator,
empty segments kept, `"" -> [""]`). -/
def splitOnDot : List Char → List (List Char)
  | [] => [[]]
  | c :: cs =>
      let rest := splitOnDot cs
      if c = '.' then [] :: rest
      else
        match rest with
        | [] => [[c]]
        | seg :: segs => (c :: seg) :: segs

/-- JS `token.split('.')`. -/
def strSplitDots (s : String) : List String :=
  (splitOnDot s.data).map (fun l => String.mk l)

/-- The JSON claims read out of a decoded JWT middle segment (only the fields
the routing logic consults: `bsimId` and `type`). -/
structure JwtPayload where
  bsimId : Option String
  type : Option String
deriving DecidableEq, Repr

/-- Result of `analyzeCardToken` (the TS field `prefix` is `prefixPart` here,
`prefix` being reserved in Lean). -/
structure TokenAnalysis where
  prefixPart : Option String
  bsimId : Option String
  isJwt : Bool
  tokenType : Option String
  isWalletToken : Bool
  rawLength : Nat
deriving DecidableEq, Repr

/-- `analyzeCardToken` from `src/services/payment.ts`: wsim-prefix match
first, else the generic lowercase prefix (with the legacy `wsim_bsim_`
special case), then the three-dot-segment JWT step, whose decoded `bsimId`
claim is taken only when no bsimId was found yet.  `decode` is the
`Buffer.from(base64)` + `JSON.parse` oracle; `none` models a thrown decode
error (swallowed by the TS `catch`).  The prefix phase below computes the
anchored-regex matches; `analyzeCardToken` chains it with the JWT phase. -/
def analyzePrefixStep (cardToken : String) : TokenAnalysis :=
  let a0 : TokenAnalysis :=
    { prefixPart := none, bsimId := none, isJwt := false, tokenType := none,
      isWalletToken := false, rawLength := cardToken.length }
  match wsimMatch cardToken with
  | some b =>
      { a0 with prefixPart := some ("wsim_" ++ b ++ "_"), bsimId := some b,
                isWalletToken := true }
  | none =>
      match prefixMatchLower cardToken with
      | some p =>
          if p = "wsim_bsim_" then
            { a0 with prefixPart := some p, isWalletToken := true, bsimId := some "bsim" }
          else
            { a0 with prefixPart := some p }
      | none => a0

/-- The JWT step of `analyzeCardToken`: when the token has exactly three
dot-separated segments, decode the middle one; keep the claimed `bsimId` only
when it is truthy and no bsimId was found by the prefix step. -/
def analyzeJwtStep (decode : String → Option JwtPayload) (parts : List String)
    (a1 : TokenAnalysis) : TokenAnalysis :=
  match parts with
  | [_, middle, _] =>
      let a2 := { a1 with isJwt := true }
      match decode middle with
      | some payload =>
          let a3 := { a2 with tokenType := truthyOpt payload.type }
          let a4 :=
            if truthyS payload.bsimId ∧ a3.bsimId = none then
              { a3 with bsimId := payload.bsimId }
            else a3
          if payload.type = some "wallet_payment_token" then
            { a4 with isWalletToken := true }
          else a4
      | none => a2
  | _ => a1

def analyzeCardToken (decode : String → Option JwtPayload) (cardToken : String) :
    TokenAnalysis :=
  analyzeJwtStep decode (strSplitDots cardToken) (analyzePrefixStep cardToken)

/-- The issuer instance id the authorize path routes by:
`tokenAnalysis.bsimId || config.defaultBsimId`. -/
def resolveBsimId (decode : String → Option JwtPayload) (defaultBsimId : String)
    (cardToken : String) : String :=
  truthyOr (analyzeCardToken decode cardToken).bsimId defaultBsimId

/-- `token.startsWith(pre)`. -/
def strStartsWith (s pre : String) : Bool :=
  pre.data.isPrefixOf s.data

/-- `token.includes('.')`. -/
def strContainsDot (s : String) : Bool :=
  s.data.contains '.'

/-- `BsimRegistry.extractBsimIdFromToken` from `src/services/bsim-registry.ts`:
wsim prefix first, then the `ctok_` rule, then the three-segment JWT claim
(falsy/failed decodes fall through), else the configured default. -/
def extractBsimIdFromToken (decode : String → Option JwtPayload)
    (defaultBsimId : String) (cardToken : String) : String :=
  match wsimMatch cardToken with
  | some b => b
  | none =>
      if strStartsWith cardToken "ctok_" then defaultBsimId
      else if strContainsDot cardToken then
        match strSplitDots cardToken with
        | [_, middle, _] =>
            match decode middle with
            | some payload =>
                match payload.bsimId with
                | some b => if b = "" then defaultBsimId else b
                | none => defaultBsimId
            | none => defaultBsimId
        | _ => defaultBsimId
      else defaultBsimId

/-! ### The Bsim issuer client (`src/services/bsim-client.ts`) -/

/-- A thrown JS `Error` as far as `isRetryableError` can observe it: its
message, and whether it is a `TypeError` (fetch failures). -/
structure JsError where
  message : String
  isTypeError : Bool
deriving DecidableEq, Repr

/-- Check whether `pat` occurs as a substring of `s`
(JS `String.prototype.includes`). -/
def hasSubstr (s pat : String) : Bool :=
  s.data.tails.any (fun t => pat.data.isPrefixOf t)

/-- Consume a literal character sequence, returning the remainder. -/
def dropLit : List Char → List Char → Option (List Char)
  | [], t => some t
  | p :: ps, c :: cs => if c = p then dropLit ps cs else none
  | _ :: _, [] => none

/-- One anchored attempt of the regex `BSIM request failed: 5\d{2}`. -/
def retryable5xxAt (t : List Char) : Bool :=
  match dropLit "BSIM request failed: 5".data t with
  | some (d1 :: d2 :: _) => d1.isDigit && d2.isDigit
  | _ => false

/-- Unanchored search of `/BSIM request failed: 5\d{2}/` in a message. -/
def matchesRetryable5xx (s : String) : Bool :=
  s.data.tails.any retryable5xxAt

/-- `isRetryableError` from `src/services/bsim-client.ts`: fetch `TypeError`s,
messages carrying the client's own 5xx marker, and messages mentioning a
known network-failure marker. -/
def isRetryableError (e : JsError) : Bool :=
  (e.isTypeError && hasSubstr e.message "fetch")
  || matchesRetryable5xx e.message
  || hasSubstr e.message "ECONNREFUSED"
  || hasSubstr e.message "ETIMEDOUT"
  || hasSubstr e.message "ENOTFOUND"
  || hasSubstr e.message "socket hang up"
  || hasSubstr e.message "network"

/-- The error object built for a non-ok HTTP response:
``new Error(`BSIM request failed: ${status} ${errorText}`)``. -/
def mkHttpError (status : Nat) (text : String) : JsError :=
  { message := "BSIM request failed: " ++ toString status ++ " " ++ text,
    isTypeError := false }

/-- What one `fetch` attempt inside `makeRequest` can produce: an ok response
whose JSON body parsed to `val`, a non-ok HTTP response, or a thrown error. -/
inductive AttemptOutcome (α : Type) where
  | success (val : α)
  | httpError (status : Nat) (text : String)
  | netError (e : JsError)

/-- Observable behaviour of one `makeRequest` call: its outcome, how many
fetch attempts were made, and the backoff delays (ms) slept between them. -/
structure RequestTrace (α : Type) where
  result : Except JsError α
  attempts : Nat
  delays : List Nat
deriving Repr

/-- The retry loop of `makeRequest`, starting at iteration `attempt` with
`remaining` retries still allowed (`remaining = maxRetries - attempt`).
If `attempt > 0` the iteration first sleeps `baseDelay * 2 ^ (attempt - 1)`.
A 5xx response with retries left continues; otherwise the constructed error
is thrown inside `try`, re-caught by the iteration's own `catch`, and
retried only when `isRetryableError` accepts it and retries are left. -/
def makeRequestGo (outcomes : Nat → AttemptOutcome α) (baseDelay : Nat) :
    (attempt remaining : Nat) → RequestTrace α
  | attempt, 0 =>
      let ds : List Nat := if attempt = 0 then [] else [baseDelay * 2 ^ (attempt - 1)]
      match outcomes attempt with
      | .success v => ⟨.ok v, 1, ds⟩
      | .httpError status text => ⟨.error (mkHttpError status text), 1, ds⟩
      | .netError e => ⟨.error e, 1, ds⟩
  | attempt, r + 1 =>
      let ds : List Nat := if attempt = 0 then [] else [baseDelay * 2 ^ (attempt - 1)]
      match outcomes attempt with
      | .success v => ⟨.ok v, 1, ds⟩
      | .httpError status text =>
          if 500 ≤ status ∨ isRetryableError (mkHttpError status text) then
            let rest := makeRequestGo outcomes baseDelay (attempt + 1) r
            ⟨rest.result, rest.attempts + 1, ds ++ rest.delays⟩
          else ⟨.error (mkHttpError status text), 1, ds⟩
      | .netError e =>
          if isRetryableError e then
            let rest := makeRequestGo outcomes baseDelay (attempt + 1) r
            ⟨rest.result, rest.attempts + 1, ds ++ rest.delays⟩
          else ⟨.error e, 1, ds⟩

/-- `makeRequest` from `src/services/bsim-client.ts`, with the sequence of
per-attempt fetch outcomes supplied as an oracle. -/
def makeRequest (outcomes : Nat → AttemptOutcome α) (maxRetries baseDelay : Nat) :
    RequestTrace α :=
  makeRequestGo outcomes baseDelay 0 maxRetries

/-- Wire response of `POST /api/payment-network/authorize`. -/
structure BsimRawAuthResponse where
  status : String
  authorizationCode : Option String
  declineReason : Option String
  availableCredit : Option Int
deriving DecidableEq, Repr

/-- `BsimAuthorizationResponse`: the structured outcome the client returns. -/
structure BsimAuthorizationResponse where
  approved : Bool
  authorizationCode : Option String
  declineReason : Option String
  availableCredit : Option Int
deriving DecidableEq, Repr

/-- `BsimClient.authorize`: forwards the parsed wire response, and converts
any thrown error (including retry exhaustion) into
`approved: false, declineReason: error.message` — it never throws. -/
def clientAuthorize (outcomes : Nat → AttemptOutcome BsimRawAuthResponse)
    (maxRetries baseDelay : Nat) : BsimAuthorizationResponse :=
  match (makeRequest outcomes maxRetries baseDelay).result with
  | .ok r =>
      { approved := r.status = "approved", authorizationCode := r.authorizationCode,
        declineReason := r.declineReason, availableCredit := r.availableCredit }
  | .error e =>
      { approved := false, authorizationCode := none,
        declineReason := some e.message, availableCredit := none }

/-! ### PaymentService (`src/services/payment.ts`) -/

/-- Result of a Bsim client call as seen by PaymentService: the structured
response, or a thrown JS error (caught by the service's `try`/`catch`). -/
inductive ClientOutcome (α : Type) where
  | ok (val : α)
  | thrown (msg : String)
deriving DecidableEq, Repr

/-- `BsimCaptureRequest`. -/
structure BsimCaptureRequest where
  authorizationCode : String
  amount : Int
deriving DecidableEq, Repr

/-- `BsimCaptureResponse`. -/
structure BsimCaptureResponse where
  success : Bool
  error : Option String
deriving DecidableEq, Repr

/-- `BsimVoidRequest`. -/
structure BsimVoidRequest where
  authorizationCode : String
deriving DecidableEq, Repr

/-- `BsimVoidResponse`. -/
structure BsimVoidResponse where
  success : Bool
  error : Option String
deriving DecidableEq, Repr

/-- `BsimRefundRequest`. -/
structure BsimRefundRequest where
  authorizationCode : String
  amount : Int
deriving DecidableEq, Repr

/-- `BsimRefundResponse`. -/
structure BsimRefundResponse where
  success : Bool
  error : Option String
deriving DecidableEq, Repr

/-- `BsimAuthorizationRequest` (the body forwarded to the issuer). -/
structure BsimAuthorizationRequest where
  cardToken : String
  amount : Int
  merchantId : String
  merchantName : String
  orderId : String
deriving DecidableEq, Repr

/-- An outbound issuer-gateway call made by a PaymentService operation. -/
inductive IssuerCall where
  | authorizeCall (req : BsimAuthorizationRequest)
  | captureCall (req : BsimCaptureRequest)
  | voidCall (req : BsimVoidRequest)
  | refundCall (req : BsimRefundRequest)
deriving DecidableEq, Repr

/-- `PaymentAuthorizationRequest`. -/
structure PaymentAuthorizationRequest where
  merchantId : String
  merchantName : String
  amount : Int
  currency : String
  cardToken : String
  orderId : String
  description : Option String
deriving DecidableEq, Repr

/-- `PaymentAuthorizationResponse`. -/
structure PaymentAuthorizationResponse where
  transactionId : String
  status : PaymentStatus
  authorizationCode : Option String
  declineReason : Option String
  timestamp : Int
deriving DecidableEq, Repr

/-- `PaymentCaptureRequest` (`amount` optional for partial capture). -/
structure PaymentCaptureRequest where
  transactionId : String
  amount : Option Int
deriving DecidableEq, Repr

/-- `PaymentCaptureResponse`. -/
structure PaymentCaptureResponse where
  transactionId : String
  status : PaymentStatus
  capturedAmount : Int
  timestamp : Int
deriving DecidableEq, Repr

/-- `PaymentVoidRequest`. -/
structure PaymentVoidRequest where
  transactionId : String
  reason : Option String
deriving DecidableEq, Repr

/-- `PaymentVoidResponse`. -/
structure PaymentVoidResponse where
  transactionId : String
  status : PaymentStatus
  timestamp : Int
deriving DecidableEq, Repr

/-- `PaymentRefundRequest` (`amount` optional for partial refund). -/
structure PaymentRefundRequest where
  transactionId : String
  amount : Option Int
  reason : Option String
deriving DecidableEq, Repr

/-- `PaymentRefundResponse`. -/
structure PaymentRefundResponse where
  transactionId : String
  refundId : String
  status : PaymentStatus
  refundedAmount : Int
  timestamp : Int
deriving DecidableEq, Repr

/-- Default of `config.authorizationExpiryHours` (`AUTH_EXPIRY_HOURS || '168'`). -/
def defaultAuthorizationExpiryHours : Int := 168

/-- Observable effect of `PaymentService.authorize`. -/
structure AuthorizeResult where
  response : PaymentAuthorizationResponse
  store : Store
  issuerCalls : List IssuerCall
  events : List WebhookEventType
deriving Repr

/-- `PaymentService.authorize`: create a `pending` transaction (expiry stamp
computed immediately as `now + expiryHours` in ms, bsimId resolved from the
token), call the issuer, set the status from the outcome (`authorized`,
`declined`, or — when the client call throws — `failed` with reason
`"Network error"`), persist, and raise exactly one webhook event. -/
def authorize (decode : String → Option JwtPayload) (defaultBsimId : String)
    (expiryHours : Int) (txId : String) (now : Int)
    (outcome : ClientOutcome BsimAuthorizationResponse)
    (store : Store) (request : PaymentAuthorizationRequest) : AuthorizeResult :=
  let bsimId := resolveBsimId decode defaultBsimId request.cardToken
  let base : PaymentTransaction :=
    { id := txId, merchantId := request.merchantId,
      merchantName := request.merchantName, orderId := request.orderId,
      cardToken := request.cardToken, amount := request.amount,
      currency := if request.currency = "" then "CAD" else request.currency,
      status := .pending, authorizationCode := none,
      capturedAmount := 0, refundedAmount := 0,
      description := request.description, declineReason := none,
      createdAt := now, updatedAt := now,
      expiresAt := some (now + expiryHours * 3600000), bsimId := some bsimId }
  let tx :=
    match outcome with
    | .ok r =>
        if r.approved then
          { base with status := .authorized, authorizationCode := r.authorizationCode }
        else
          { base with status := .declined, declineReason := r.declineReason }
    | .thrown _ =>
        { base with status := .failed, declineReason := some "Network error" }
  let ev :=
    if tx.status = .authorized then WebhookEventType.paymentAuthorized
    else if tx.status = .declined then WebhookEventType.paymentDeclined
    else WebhookEventType.paymentFailed
  { response :=
      { transactionId := txId, status := tx.status,
        authorizationCode := tx.authorizationCode,
        declineReason := tx.declineReason, timestamp := now },
    store := storeSet store txId tx,
    issuerCalls :=
      [.authorizeCall
        { cardToken := request.cardToken, amount := request.amount,
          merchantId := request.merchantId, merchantName := request.merchantName,
          orderId := request.orderId }],
    events := [ev] }

/-- Observable effect of `PaymentService.capture`. -/
structure CaptureResult where
  response : PaymentCaptureResponse
  store : Store
  issuerCalls : List IssuerCall
  events : List WebhookEventType
deriving Repr

/-- `PaymentService.capture`: unknown transaction → `failed` result; status
other than `authorized` → return the current status untouched with no issuer
call; otherwise call the issuer with `request.amount ?? transaction.amount`,
record `captured`/`failed`, and raise `payment.captured` only on success. -/
def capture (outcome : ClientOutcome BsimCaptureResponse) (now : Int)
    (store : Store) (request : PaymentCaptureRequest) : CaptureResult :=
  match findById store request.transactionId with
  | none => ⟨⟨request.transactionId, .failed, 0, now⟩, store, [], []⟩
  | some tx =>
      if tx.status = .authorized then
        let captureAmount := request.amount.getD tx.amount
        let call := IssuerCall.captureCall
          ⟨tx.authorizationCode.getD "", captureAmount⟩
        match outcome with
        | .ok r =>
            if r.success then
              let tx' := { tx with
                status := .captured, capturedAmount := captureAmount, updatedAt := now }
              ⟨⟨request.transactionId, tx'.status, tx'.capturedAmount, now⟩,
                storeSet store request.transactionId tx', [call],
                [.paymentCaptured]⟩
            else
              let tx' := { tx with
                status := .failed, declineReason := r.error, updatedAt := now }
              ⟨⟨request.transactionId, tx'.status, tx'.capturedAmount, now⟩,
                storeSet store request.transactionId tx', [call], []⟩
        | .thrown _ =>
            let tx' := { tx with
              status := .failed, declineReason := some "Network error", updatedAt := now }
            ⟨⟨request.transactionId, tx'.status, tx'.capturedAmount, now⟩,
              storeSet store request.transactionId tx', [call], []⟩
      else
        ⟨⟨request.transactionId, tx.status, tx.capturedAmount, now⟩, store, [], []⟩

/-- Observable effect of `PaymentService.void`. -/
structure VoidResult where
  response : PaymentVoidResponse
  store : Store
  issuerCalls : List IssuerCall
  events : List WebhookEventType
deriving Repr

/-- `PaymentService.void`: unknown transaction → `failed`; status other than
`authorized` → current status untouched, no issuer call; otherwise issuer
void, `voided` on success (raising `payment.voided`), `failed` otherwise. -/
def voidTransaction (outcome : ClientOutcome BsimVoidResponse) (now : Int)
    (store : Store) (request : PaymentVoidRequest) : VoidResult :=
  match findById store request.transactionId with
  | none => ⟨⟨request.transactionId, .failed, now⟩, store, [], []⟩
  | some tx =>
      if tx.status = .authorized then
        let call := IssuerCall.voidCall ⟨tx.authorizationCode.getD ""⟩
        match outcome with
        | .ok r =>
            if r.success then
              let tx' := { tx with status := .voided, updatedAt := now }
              ⟨⟨request.transactionId, tx'.status, now⟩,
                storeSet store request.transactionId tx', [call],
                [.paymentVoided]⟩
            else
              let tx' := { tx with
                status := .failed, declineReason := r.error, updatedAt := now }
              ⟨⟨request.transactionId, tx'.status, now⟩,
                storeSet store request.transactionId tx', [call], []⟩
        | .thrown _ =>
            let tx' := { tx with
              status := .failed, declineReason := some "Network error", updatedAt := now }
            ⟨⟨request.transactionId, tx'.status, now⟩,
              storeSet store request.transactionId tx', [call], []⟩
      else
        ⟨⟨request.transactionId, tx.status, now⟩, store, [], []⟩

/-- Observable effect of `PaymentService.refund`. -/
structure RefundResult where
  response : PaymentRefundResponse
  store : Store
  issuerCalls : List IssuerCall
  events : List WebhookEventType
deriving Repr

/-- `PaymentService.refund`: unknown transaction → `failed`; status other
than `captured` → current status untouched, no issuer call; otherwise issuer
refund of `request.amount ?? (capturedAmount - refundedAmount)`; on success
add to `refundedAmount`, flip to `refunded` exactly when the new amount has
reached `capturedAmount`, and raise `payment.refunded`; on issuer failure or
a thrown call, return a `failed` result without touching the store and
without raising any event. -/
def refund (outcome : ClientOutcome BsimRefundResponse) (refundId : String)
    (now : Int) (store : Store) (request : PaymentRefundRequest) : RefundResult :=
  match findById store request.transactionId with
  | none => ⟨⟨request.transactionId, refundId, .failed, 0, now⟩, store, [], []⟩
  | some tx =>
      if tx.status = .captured then
        let refundAmount := request.amount.getD (tx.capturedAmount - tx.refundedAmount)
        let call := IssuerCall.refundCall
          ⟨tx.authorizationCode.getD "", refundAmount⟩
        match outcome with
        | .ok r =>
            if r.success then
              let newRefunded := tx.refundedAmount + refundAmount
              let newStatus :=
                if tx.capturedAmount ≤ newRefunded then PaymentStatus.refunded
                else tx.status
              let tx' := { tx with
                status := newStatus, refundedAmount := newRefunded, updatedAt := now }
              ⟨⟨request.transactionId, refundId, tx'.status, tx'.refundedAmount, now⟩,
                storeSet store request.transactionId tx', [call],
                [.paymentRefunded]⟩
            else
              ⟨⟨request.transactionId, refundId, .failed, tx.refundedAmount, now⟩,
                store, [call], []⟩
        | .thrown _ =>
            ⟨⟨request.transactionId, refundId, .failed, tx.refundedAmount, now⟩,
              store, [call], []⟩
      else
        ⟨⟨request.transactionId, refundId, tx.status, tx.refundedAmount, now⟩,
          store, [], []⟩

/-- `transaction.status === 'authorized' && transaction.expiresAt &&
transaction.expiresAt <= now` (`Date` objects are always truthy). -/
def isExpiredAuthorized (now : Int) (tx : PaymentTransaction) : Bool :=
  tx.status = .authorized &&
    (match tx.expiresAt with
     | some e => decide (e ≤ now)
     | none => false)

/-- `PaymentService.getExpiredAuthorizations`: scan the store in insertion
order for authorized transactions whose expiry is due. -/
def getExpiredAuthorizations (store : Store) (now : Int) : List PaymentTransaction :=
  (store.map Prod.snd).filter (isExpiredAuthorized now)

/-- Observable effect of `PaymentService.expireAuthorization`. -/
structure ExpireResult where
  store : Store
  issuerCalls : List IssuerCall
  events : List WebhookEventType
deriving Repr

/-- `PaymentService.expireAuthorization`: skip unless the transaction exists
with status `authorized`; attempt a best-effort issuer void (outcome ignored,
a thrown call only logged), then unconditionally mark the transaction
`expired` and raise `payment.expired`. -/
def expireAuthorization (issuerVoid : BsimVoidRequest → ClientOutcome BsimVoidResponse)
    (now : Int) (store : Store) (transactionId : String) : ExpireResult :=
  match findById store transactionId with
  | none => ⟨store, [], []⟩
  | some tx =>
      if tx.status = .authorized then
        let calls :=
          match tx.authorizationCode with
          | some code =>
              if code = "" then []
              else
                let _ := issuerVoid ⟨code⟩
                [IssuerCall.voidCall ⟨code⟩]
          | none => []
        let tx' := { tx with status := .expired, updatedAt := now }
        ⟨storeSet store transactionId tx', calls, [.paymentExpired]⟩
      else ⟨store, [], []⟩

/-- One step of the expiry sweep's sequential loop: expire the next found
transaction by its id against the store accumulated so far. -/
def expireStep (issuerVoid : BsimVoidRequest → ClientOutcome BsimVoidResponse)
    (now : Int) (acc : Store × List WebhookEventType)
    (tx : PaymentTransaction) : Store × List WebhookEventType :=
  let r := expireAuthorization issuerVoid now acc.1 tx.id
  (r.store, acc.2 ++ r.events)

/-- One tick of the expiry sweep (`processExpiredAuthorizations` in
`src/queue/expiry-scheduler.ts`): collect the due authorizations, then expire
each by id sequentially. -/
def monitorTick (issuerVoid : BsimVoidRequest → ClientOutcome BsimVoidResponse)
    (now : Int) (store : Store) : Store × List WebhookEventType :=
  (getExpiredAuthorizations store now).foldl (expireStep issuerVoid now) (store, [])

/-! ### Webhook notification queue
(`src/services/webhook.ts`, `src/queue/webhook-queue.ts`). -/

/-- The transaction-derived payload body of a webhook notification. -/
structure WebhookPayloadData where
  transactionId : String
  merchantId : String
  orderId : String
  amount : Int
  currency : String
  status : PaymentStatus
deriving DecidableEq, Repr

/-- The serialized webhook payload: fresh uuid, event type, timestamp, data. -/
structure WebhookPayload where
  id : String
  type : WebhookEventType
  timestamp : Int
  data : WebhookPayloadData
deriving DecidableEq, Repr

/-- `WebhookJobData`: what gets enqueued for the delivery worker. -/
structure WebhookJobData where
  webhookId : String
  webhookUrl : String
  webhookSecret : String
  payload : WebhookPayload
  attempt : Nat
deriving DecidableEq, Repr

/-- A registered merchant endpoint (`WebhookConfig`). -/
structure WebhookConfig where
  id : String
  merchantId : String
  url : String
  events : List WebhookEventType
  secret : String
  isActive : Bool
deriving DecidableEq, Repr

/-- The BullMQ-backed durable queue: jobs keyed by job id, insertion order. -/
abbrev WebhookQueue := List (String × WebhookJobData)

/-- `queue.add(name, data, with jobId)`: BullMQ ignores an `add` whose job id
is already present, else appends. -/
def addJob (q : WebhookQueue) (jobId : String) (jd : WebhookJobData) : WebhookQueue :=
  if q.any (fun e => e.1 = jobId) then q else q ++ [(jobId, jd)]

/-- `enqueueWebhook` from `src/queue/webhook-queue.ts`: the job id is the
payload id. -/
def enqueueWebhook (q : WebhookQueue) (jd : WebhookJobData) : WebhookQueue :=
  addJob q jd.payload.id jd

/-- `WebhookService.sendWebhookNotification`: for every active endpoint of
the merchant subscribed to the event, build a payload with a **fresh** uuid
(`uuid ctr`, counter incremented per built payload) and enqueue it. -/
def sendWebhookNotification (webhooks : List WebhookConfig) (uuid : Nat → String)
    (now : Int) (event : WebhookEventType) (data : WebhookPayloadData)
    (q : WebhookQueue) (ctr : Nat) : WebhookQueue × Nat :=
  let hooks := webhooks.filter (fun w => w.merchantId = data.merchantId && w.isActive)
  hooks.foldl
    (fun (acc : WebhookQueue × Nat) w =>
      if event ∈ w.events then
        (enqueueWebhook acc.1
          { webhookId := w.id, webhookUrl := w.url, webhookSecret := w.secret,
            payload := { id := uuid acc.2, type := event, timestamp := now, data := data },
            attempt := 0 }, acc.2 + 1)
      else acc)
    (q, ctr)

/-! ### Operation sequences and the amount invariants -/

/-- One inbound operation against the transaction engine, bundled with the
identifiers the service draws (`randomUUID`), the wall clock, and the issuer
outcome the gateway produces for the single call the operation may make. -/
inductive ServiceOp where
  | authOp (decode : String → Option JwtPayload) (defaultBsimId : String)
      (expiryHours : Int) (txId : String) (now : Int)
      (outcome : ClientOutcome BsimAuthorizationResponse)
      (request : PaymentAuthorizationRequest)
  | capOp (outcome : ClientOutcome BsimCaptureResponse) (now : Int)
      (request : PaymentCaptureRequest)
  | voidOp (outcome : ClientOutcome BsimVoidResponse) (now : Int)
      (request : PaymentVoidRequest)
  | refOp (outcome : ClientOutcome BsimRefundResponse) (refundId : String)
      (now : Int) (request : PaymentRefundRequest)
  | expOp (issuerVoid : BsimVoidRequest → ClientOutcome BsimVoidResponse)
      (now : Int) (transactionId : String)

/-- Effect of one operation on the stored transactions. -/
def applyOp (store : Store) : ServiceOp → Store
  | .authOp decode dflt hours txId now outcome request =>
      (authorize decode dflt hours txId now outcome store request).store
  | .capOp outcome now request => (capture outcome now store request).store
  | .voidOp outcome now request => (voidTransaction outcome now store request).store
  | .refOp outcome refundId now request =>
      (refund outcome refundId now store request).store
  | .expOp issuerVoid now transactionId =>
      (expireAuthorization issuerVoid now store transactionId).store

/-- Effect of a whole operation sequence. -/
def runOps (store : Store) (ops : List ServiceOp) : Store :=
  ops.foldl applyOp store

/-- The specification invariants for one transaction:
`0 ≤ capturedAmount ≤ amount` and `0 ≤ refundedAmount ≤ capturedAmount`. -/
def TxInvariant (tx : PaymentTransaction) : Prop :=
  0 ≤ tx.capturedAmount ∧ tx.capturedAmount ≤ tx.amount ∧
    0 ≤ tx.refundedAmount ∧ tx.refundedAmount ≤ tx.capturedAmount

instance (tx : PaymentTransaction) : Decidable (TxInvariant tx) := by
  unfold TxInvariant; infer_instance

/-- Auxiliary structural fact the engine maintains: amounts are only ever
nonzero once a transaction has been captured. -/
def TxAux (tx : PaymentTransaction) : Prop :=
  tx.status = .captured ∨ tx.status = .refunded ∨
    (tx.capturedAmount = 0 ∧ tx.refundedAmount = 0)

instance (tx : PaymentTransaction) : Decidable (TxAux tx) := by
  unfold TxAux; infer_instance

/-- All stored transactions satisfy both invariants. -/
def StoreOk (store : Store) : Prop :=
  ∀ p ∈ store, TxInvariant p.2 ∧ TxAux p.2

instance (store : Store) : Decidable (StoreOk store) := by
  unfold StoreOk; infer_instance

/-- Does a capture outcome report issuer success? -/
def captureOk : ClientOutcome BsimCaptureResponse → Bool
  | .ok r => r.success
  | .thrown _ => false

/-- Does a refund outcome report issuer success? -/
def refundOk : ClientOutcome BsimRefundResponse → Bool
  | .ok r => r.success
  | .thrown _ => false

/-- Sanitation condition on one operation given the current store: authorize
amounts are nonnegative, and the issuer approves a capture (resp. refund)
only when its amount lies within the authorized amount (resp. the remaining
refundable balance).  This is exactly what the engine itself never checks. -/
def opOkB (store : Store) : ServiceOp → Bool
  | .authOp _ _ _ _ _ _ request => decide (0 ≤ request.amount)
  | .capOp outcome _ request =>
      match findById store request.transactionId with
      | some tx =>
          if tx.status = .authorized && captureOk outcome then
            decide (0 ≤ request.amount.getD tx.amount) &&
              decide (request.amount.getD tx.amount ≤ tx.amount)
          else true
      | none => true
  | .voidOp _ _ _ => true
  | .refOp outcome _ _ request =>
      match findById store request.transactionId with
      | some tx =>
          if tx.status = .captured && refundOk outcome then
            decide (0 ≤ request.amount.getD (tx.capturedAmount - tx.refundedAmount)) &&
              decide (request.amount.getD (tx.capturedAmount - tx.refundedAmount) ≤
                tx.capturedAmount - tx.refundedAmount)
          else true
      | none => true
  | .expOp _ _ _ => true

/-- Sanitation condition along a whole run. -/
def runOkB : Store → List ServiceOp → Bool
  | _, [] => true
  | store, op :: ops => opOkB store op && runOkB (applyOp store op) ops

/-! ### Sample data used by witnesses and counterexamples -/

/-- A stored transaction with a chosen status, amount 100, captured 100,
refunded 40 when in a post-capture status, zero amounts otherwise. -/
def sampleTx (st : PaymentStatus) : PaymentTransaction :=
  { id := "t1", merchantId := "m1", merchantName := "Store One", orderId := "o1",
    cardToken := "ctok_valid_token_123", amount := 100, currency := "CAD",
    status := st,
    authorizationCode := some "AUTH-1",
    capturedAmount := if st = .captured ∨ st = .refunded then 100 else 0,
    refundedAmount := if st = .captured ∨ st = .refunded then 40 else 0,
    description := none, declineReason := none,
    createdAt := 0, updatedAt := 0, expiresAt := some 604800000,
    bsimId := some "bsim" }

/-- A concrete authorization request. -/
def demoAuthRequest : PaymentAuthorizationRequest :=
  { merchantId := "m1", merchantName := "Store One", amount := 100,
    currency := "CAD", cardToken := "ctok_valid_token_123", orderId := "o1",
    description := none }

/-- An approving issuer authorize outcome. -/
def demoApproved : ClientOutcome BsimAuthorizationResponse :=
  .ok { approved := true, authorizationCode := some "AUTH-1",
        declineReason := none, availableCredit := some 9900 }

/-- A sanitized end-to-end run: authorize 100, capture in full, refund 40. -/
def demoOps : List ServiceOp :=
  [ .authOp (fun _ => none) "bsim" 168 "t1" 0 demoApproved demoAuthRequest,
    .capOp (.ok ⟨true, none⟩) 1 ⟨"t1", none⟩,
    .refOp (.ok ⟨true, none⟩) "r1" 2 ⟨"t1", some 40, none⟩ ]

/-- A run the engine accepts although it breaks the invariant: authorize 100,
then capture 200 with an issuer that approves the over-capture. -/
def badOps : List ServiceOp :=
  [ .authOp (fun _ => none) "bsim" 168 "t1" 0 demoApproved demoAuthRequest,
    .capOp (.ok ⟨true, none⟩) 5 ⟨"t1", some 200⟩ ]

/-- The transaction `badOps` leaves behind: 200 captured on a 100 authorization. -/
def badTx : PaymentTransaction :=
  { id := "t1", merchantId := "m1", merchantName := "Store One", orderId := "o1",
    cardToken := "ctok_valid_token_123", amount := 100, currency := "CAD",
    status := .captured, authorizationCode := some "AUTH-1",
    capturedAmount := 200, refundedAmount := 0,
    description := none, declineReason := none,
    createdAt := 0, updatedAt := 5, expiresAt := some 604800000,
    bsimId := some "bsim" }

/-! ### Claim theorems -/

/-- The composed authorize path: the real `BsimClient.authorize` (which
never throws — it converts every failure into `approved:false` with the
error message) feeding `PaymentService.authorize`. -/
def authorizeEndToEnd (decode : String → Option JwtPayload) (defaultBsimId : String)
    (expiryHours : Int) (txId : String) (now : Int)
    (outcomes : Nat → AttemptOutcome BsimRawAuthResponse) (maxRetries baseDelay : Nat)
    (store : Store) (request : PaymentAuthorizationRequest) : AuthorizeResult :=
  authorize decode defaultBsimId expiryHours txId now
    (.ok (clientAuthorize outcomes maxRetries baseDelay)) store request

/-- The end-to-end authorize run refuting C4: every gateway attempt yields a
500, the retries exhaust, and the transaction nevertheless ends `declined`. -/
def claim4CexRun : AuthorizeResult :=
  authorizeEndToEnd (fun _ => none) "bsim" 168 "t1" 0
    (fun _ => .httpError 500 "Internal server error") 3 500 [] demoAuthRequest

/-- The declined transaction that refutes C10: the issuer declined, yet the
stored transaction carries the expiry stamp computed at creation. -/
def claim10CexRun : AuthorizeResult :=
  authorize (fun _ => none) "bsim" 168 "t1" 0
    (.ok { approved := false, authorizationCode := none,
           declineReason := some "Invalid card token", availableCredit := none })
    [] demoAuthRequest

/-- The record `claim10CexRun` stores for `"t1"`. -/
def claim10CexTx : PaymentTransaction :=
  { id := "t1", merchantId := "m1", merchantName := "Store One", orderId := "o1",
    cardToken := "ctok_valid_token_123", amount := 100, currency := "CAD",
    status := .declined, authorizationCode := none,
    capturedAmount := 0, refundedAmount := 0,
    description := none, declineReason := some "Invalid card token",
    createdAt := 0, updatedAt := 0, expiresAt := some 604800000,
    bsimId := some "bsim" }

/-- Endpoint registration used by the C9 run. -/
def claim9Hooks : List WebhookConfig :=
  [{ id := "w1", merchantId := "m1", url := "https://merchant.example/hook",
     events := [.paymentRefunded], secret := "s3cr3t", isActive := true }]

/-- The logical event payload data raised twice in the C9 run. -/
def claim9Data : WebhookPayloadData :=
  { transactionId := "t1", merchantId := "m1", orderId := "o1", amount := 40,
    currency := "CAD", status := .captured }

/-- First raise of the logical event (fresh uuid `u0`). -/
def claim9First : WebhookQueue × Nat :=
  sendWebhookNotification claim9Hooks (fun n => "u" ++ toString n) 10
    .paymentRefunded claim9Data [] 0

/-- Second raise of the same logical event (fresh uuid `u1`). -/
def claim9Second : WebhookQueue × Nat :=
  sendWebhookNotification claim9Hooks (fun n => "u" ++ toString n) 10
    .paymentRefunded claim9Data claim9First.1 claim9First.2

/-- The first job the C9 run enqueues. -/
def claim9Job : WebhookJobData :=
  { webhookId := "w1", webhookUrl := "https://merchant.example/hook",
    webhookSecret := "s3cr3t",
    payload := { id := "u0", type := .paymentRefunded, timestamp := 10, data := claim9Data },
    attempt := 0 }

/-- Whether an `Except` result is a success. -/
def exceptIsOk : Except ε α → Bool
  | .ok _ => true
  | .error _ => false

/-- An attempt outcome the retry loop classifies as retryable: a 5xx
response, or a network error accepted by `isRetryableError`. -/
def isServerFailure : AttemptOutcome α → Prop
  | .success _ => False
  | .httpError status _ => 500 ≤ status
  | .netError e => isRetryableError e = true

instance (o : AttemptOutcome α) : Decidable (isServerFailure o) := by
  unfold isServerFailure
  cases o <;> infer_instance

/-- The outcome sequence refuting the no-retry-on-4xx half of C6: a 400
response whose body text contains the word `network`. -/
def claim6CexOutcomes : Nat → AttemptOutcome Nat :=
  fun k => if k = 0 then .httpError 400 "network token rejected" else .success 7

/-- Well-formedness the JS `Map` store maintains by construction: keys are
unique and each stored transaction's `id` field is its key. -/
def StoreWF (store : Store) : Prop :=
  (store.map Prod.fst).Nodup ∧ ∀ p ∈ store, p.2.id = p.1

instance (store : Store) : Decidable (StoreWF store) := by
  unfold StoreWF; infer_instance

/-- An authorized transaction whose expiry stamp is already due at time 10. -/
def claim8AuthTx : PaymentTransaction :=
  { sampleTx .authorized with expiresAt := some 5 }

/-- A captured transaction stored under the key `t2`. -/
def claim8CapturedTx : PaymentTransaction :=
  { sampleTx .captured with id := "t2" }

/-- A store holding one due authorization and one captured transaction. -/
def claim8Store : Store :=
  [("t1", claim8AuthTx), ("t2", claim8CapturedTx)]

/-! ### Theorems -/

theorem findById_storeSet_self (store : Store) (k : String) (v : PaymentTransaction) :
    findById (storeSet store k v) k = some v := by
  induction store with
  | nil => simp [storeSet, findById]
  | cons p rest ih =>
      by_cases h : p.1 = k
      · simp [storeSet, findById, h]
      · simpa [storeSet, findById, h] using ih

theorem findById_storeSet_ne (store : Store) (k j : String) (v : PaymentTransaction)
    (hne : j ≠ k) : findById (storeSet store k v) j = findById store j := by
  have hkj : ¬ k = j := fun hh => hne hh.symm
  induction store with
  | nil => simp [storeSet, findById, hkj]
  | cons p rest ih =>
      by_cases h : p.1 = k
      · have hpj : ¬ p.1 = j := by rw [h]; exact hkj
        simp [storeSet, findById, h, hkj, hpj]
      · have hset : storeSet (p :: rest) k v = p :: storeSet rest k v := by
          cases p with
          | mk a b => simp [storeSet, h]
        by_cases hj : p.1 = j
        · rw [hset]
          unfold findById
          simp [List.find?, hj]
        · rw [hset]
          unfold findById
          simp only [List.find?, hj, decide_eq_true_eq, if_neg hj]
          simpa [findById, List.find?, hj] using ih

theorem mem_of_findById (store : Store) (id : String) (tx : PaymentTransaction)
    (h : findById store id = some tx) : (id, tx) ∈ store := by
  unfold findById at h
  cases hf : store.find? (fun p => p.1 = id) with
  | none => rw [hf] at h; simp at h
  | some p =>
      rw [hf] at h
      simp at h
      have hmem := List.mem_of_find?_eq_some hf
      have hp : p.1 = id := by
        have := List.find?_some hf
        simpa using this
      have : p = (id, tx) := by
        cases p with
        | mk a b =>
            cases hp
            cases h
            rfl
      rw [this] at hmem
      exact hmem

theorem storeOk_lookup (store : Store) (id : String) (tx : PaymentTransaction)
    (hok : StoreOk store) (h : findById store id = some tx) :
    TxInvariant tx ∧ TxAux tx :=
  hok _ (mem_of_findById store id tx h)

theorem storeOk_set (store : Store) (k : String) (v : PaymentTransaction)
    (hok : StoreOk store) (hv : TxInvariant v ∧ TxAux v) :
    StoreOk (storeSet store k v) := by
  induction store with
  | nil =>
      intro p hp
      simp [storeSet] at hp
      subst hp
      exact hv
  | cons q rest ih =>
      intro p hp
      cases q with
      | mk a b =>
          by_cases h : a = k
          · simp [storeSet, h] at hp
            rcases hp with hp | hp
            · subst hp; exact hv
            · exact hok p (List.mem_cons_of_mem _ hp)
          · simp [storeSet, h] at hp
            rcases hp with hp | hp
            · subst hp; exact hok (a, b) (List.mem_cons_self _ _)
            · exact ih (fun r hr => hok r (List.mem_cons_of_mem _ hr)) p hp

theorem statusAux_zero (tx : PaymentTransaction) (haux : TxAux tx)
    (h1 : tx.status ≠ .captured) (h2 : tx.status ≠ .refunded) :
    tx.capturedAmount = 0 ∧ tx.refundedAmount = 0 := by
  rcases haux with h | h | h
  · exact absurd h h1
  · exact absurd h h2
  · exact h

theorem storeOk_authorize (decode : String → Option JwtPayload)
    (defaultBsimId : String) (expiryHours : Int) (txId : String) (now : Int)
    (outcome : ClientOutcome BsimAuthorizationResponse) (store : Store)
    (request : PaymentAuthorizationRequest) (hok : StoreOk store)
    (hamt : 0 ≤ request.amount) :
    StoreOk (authorize decode defaultBsimId expiryHours txId now outcome store request).store := by
  unfold authorize
  cases outcome with
  | ok r =>
      by_cases hap : r.approved = true
      · simp only [hap, if_true]
        exact storeOk_set _ _ _ hok (by constructor <;> simp [TxInvariant, TxAux, hamt])
      · simp only [hap]
        exact storeOk_set _ _ _ hok (by constructor <;> simp [TxInvariant, TxAux, hamt])
  | thrown msg =>
      exact storeOk_set _ _ _ hok (by constructor <;> simp [TxInvariant, TxAux, hamt])

theorem storeOk_capture (outcome : ClientOutcome BsimCaptureResponse) (now : Int)
    (store : Store) (request : PaymentCaptureRequest) (hok : StoreOk store)
    (hop : opOkB store (.capOp outcome now request) = true) :
    StoreOk (capture outcome now store request).store := by
  unfold capture
  cases hfind : findById store request.transactionId with
  | none => simpa using hok
  | some tx =>
      have htx := storeOk_lookup store _ tx hok hfind
      by_cases hst : tx.status = .authorized
      · have hz := statusAux_zero tx htx.2 (by rw [hst]; decide) (by rw [hst]; decide)
        have hinv := htx.1
        cases outcome with
        | ok r =>
            by_cases hsuc : r.success = true
            · have hbounds :
                  0 ≤ request.amount.getD tx.amount ∧
                    request.amount.getD tx.amount ≤ tx.amount := by
                simp only [opOkB, hfind, hst, captureOk, hsuc] at hop
                simp at hop
                exact hop
              simp only [hst, if_true, hsuc]
              refine storeOk_set _ _ _ hok ?_
              refine ⟨?_, Or.inl rfl⟩
              unfold TxInvariant
              simp only
              obtain ⟨hc0, hca, hr0, hrc⟩ := hinv
              obtain ⟨hb1, hb2⟩ := hbounds
              refine ⟨hb1, hb2, hr0, ?_⟩
              rw [hz.2]
              exact hb1
            · simp only [hst, if_true, hsuc]
              refine storeOk_set _ _ _ hok ?_
              refine ⟨hinv, Or.inr (Or.inr hz)⟩
        | thrown msg =>
            simp only [hst, if_true]
            refine storeOk_set _ _ _ hok ?_
            exact ⟨hinv, Or.inr (Or.inr hz)⟩
      · simp only [hst, if_false]
        simpa using hok

theorem storeOk_void (outcome : ClientOutcome BsimVoidResponse) (now : Int)
    (store : Store) (request : PaymentVoidRequest) (hok : StoreOk store) :
    StoreOk (voidTransaction outcome now store request).store := by
  unfold voidTransaction
  cases hfind : findById store request.transactionId with
  | none => simpa using hok
  | some tx =>
      have htx := storeOk_lookup store _ tx hok hfind
      by_cases hst : tx.status = .authorized
      · have hz := statusAux_zero tx htx.2 (by rw [hst]; decide) (by rw [hst]; decide)
        cases outcome with
        | ok r =>
            by_cases hsuc : r.success = true
            · simp only [hst, if_true, hsuc]
              exact storeOk_set _ _ _ hok ⟨htx.1, Or.inr (Or.inr hz)⟩
            · simp only [hst, if_true, hsuc]
              exact storeOk_set _ _ _ hok ⟨htx.1, Or.inr (Or.inr hz)⟩
        | thrown msg =>
            simp only [hst, if_true]
            exact storeOk_set _ _ _ hok ⟨htx.1, Or.inr (Or.inr hz)⟩
      · simp only [hst, if_false]
        simpa using hok

theorem storeOk_refund (outcome : ClientOutcome BsimRefundResponse)
    (refundId : String) (now : Int) (store : Store)
    (request : PaymentRefundRequest) (hok : StoreOk store)
    (hop : opOkB store (.refOp outcome refundId now request) = true) :
    StoreOk (refund outcome refundId now store request).store := by
  unfold refund
  cases hfind : findById store request.transactionId with
  | none => simpa using hok
  | some tx =>
      have htx := storeOk_lookup store _ tx hok hfind
      by_cases hst : tx.status = .captured
      · cases outcome with
        | ok r =>
            by_cases hsuc : r.success = true
            · have hbounds :
                  0 ≤ request.amount.getD (tx.capturedAmount - tx.refundedAmount) ∧
                    request.amount.getD (tx.capturedAmount - tx.refundedAmount) ≤
                      tx.capturedAmount - tx.refundedAmount := by
                simp only [opOkB, hfind, hst, refundOk, hsuc] at hop
                simp at hop
                exact hop
              simp only [hst, if_true, hsuc]
              refine storeOk_set _ _ _ hok ?_
              obtain ⟨hc0, hca, hr0, hrc⟩ := htx.1
              obtain ⟨hb1, hb2⟩ := hbounds
              constructor
              · unfold TxInvariant
                simp only
                refine ⟨hc0, hca, by omega, by omega⟩
              · by_cases hfull :
                  tx.capturedAmount ≤
                    tx.refundedAmount +
                      request.amount.getD (tx.capturedAmount - tx.refundedAmount)
                · simp only [hfull, if_true]
                  exact Or.inr (Or.inl rfl)
                · simp only [hfull, if_false]
                  exact Or.inl (by simp [hst])
            · simp only [hst, if_true, hsuc]
              exact hok
        | thrown msg =>
            simp only [hst, if_true]
            exact hok
      · simp only [hst, if_false]
        exact hok

theorem storeOk_expire (issuerVoid : BsimVoidRequest → ClientOutcome BsimVoidResponse)
    (now : Int) (store : Store) (transactionId : String) (hok : StoreOk store) :
    StoreOk (expireAuthorization issuerVoid now store transactionId).store := by
  unfold expireAuthorization
  cases hfind : findById store transactionId with
  | none => simpa using hok
  | some tx =>
      have htx := storeOk_lookup store _ tx hok hfind
      by_cases hst : tx.status = .authorized
      · have hz := statusAux_zero tx htx.2 (by rw [hst]; decide) (by rw [hst]; decide)
        simp only [hst, if_true]
        exact storeOk_set _ _ _ hok ⟨htx.1, Or.inr (Or.inr hz)⟩
      · simp only [hst, if_false]
        simpa using hok

theorem storeOk_applyOp (store : Store) (op : ServiceOp) (hok : StoreOk store)
    (hop : opOkB store op = true) : StoreOk (applyOp store op) := by
  cases op with
  | authOp decode dflt hours txId now outcome request =>
      have hamt : 0 ≤ request.amount := by simpa [opOkB] using hop
      exact storeOk_authorize decode dflt hours txId now outcome store request hok hamt
  | capOp outcome now request => exact storeOk_capture outcome now store request hok hop
  | voidOp outcome now request => exact storeOk_void outcome now store request hok
  | refOp outcome refundId now request =>
      exact storeOk_refund outcome refundId now store request hok hop
  | expOp issuerVoid now transactionId =>
      exact storeOk_expire issuerVoid now store transactionId hok

theorem storeOk_run (store : Store) (ops : List ServiceOp) (hok : StoreOk store)
    (hrun : runOkB store ops = true) : StoreOk (runOps store ops) := by
  induction ops generalizing store with
  | nil => simpa [runOps] using hok
  | cons op rest ih =>
      simp only [runOkB, Bool.and_eq_true] at hrun
      have h1 := storeOk_applyOp store op hok hrun.1
      simpa [runOps] using ih (applyOp store op) h1 hrun.2

/-- C1: for every stored transaction whose status is not the required
precondition status (`authorized` for capture and void, `captured` for
refund), calling capture, void, or refund returns a result carrying the
transaction's existing status, leaves the store (hence the transaction's
status, capturedAmount, refundedAmount, declineReason) unchanged, performs no
issuer gateway call, and raises no event. -/
theorem claim1_wrong_status_is_noop (store : Store) (id : String)
    (tx : PaymentTransaction) (hfind : findById store id = some tx) :
    (∀ (outcome : ClientOutcome BsimCaptureResponse) (now : Int) (amt : Option Int),
        tx.status ≠ .authorized →
        capture outcome now store ⟨id, amt⟩ =
          ⟨⟨id, tx.status, tx.capturedAmount, now⟩, store, [], []⟩)
    ∧ (∀ (outcome : ClientOutcome BsimVoidResponse) (now : Int) (reason : Option String),
        tx.status ≠ .authorized →
        voidTransaction outcome now store ⟨id, reason⟩ =
          ⟨⟨id, tx.status, now⟩, store, [], []⟩)
    ∧ (∀ (outcome : ClientOutcome BsimRefundResponse) (refundId : String)
        (now : Int) (amt : Option Int) (reason : Option String),
        tx.status ≠ .captured →
        refund outcome refundId now store ⟨id, amt, reason⟩ =
          ⟨⟨id, refundId, tx.status, tx.refundedAmount, now⟩, store, [], []⟩) := by
  refine ⟨?_, ?_, ?_⟩
  · intro outcome now amt hst
    simp [capture, hfind, hst]
  · intro outcome now reason hst
    simp [voidTransaction, hfind, hst]
  · intro outcome refundId now amt reason hst
    simp [refund, hfind, hst]

/-- Witness for C1 at a concrete store holding a declined transaction. -/
theorem claim1_witness :
    (capture (.ok ⟨true, none⟩) 7 [("t1", sampleTx .declined)] ⟨"t1", some 50⟩ =
        ⟨⟨"t1", .declined, 0, 7⟩, [("t1", sampleTx .declined)], [], []⟩)
    ∧ (voidTransaction (.ok ⟨true, none⟩) 7 [("t1", sampleTx .declined)] ⟨"t1", none⟩ =
        ⟨⟨"t1", .declined, 7⟩, [("t1", sampleTx .declined)], [], []⟩)
    ∧ (refund (.ok ⟨true, none⟩) "r9" 7 [("t1", sampleTx .declined)] ⟨"t1", none, none⟩ =
        ⟨⟨"r9".length > 0 |> fun _ => "t1", "r9", .declined, 0, 7⟩,
          [("t1", sampleTx .declined)], [], []⟩) := by
  have h := claim1_wrong_status_is_noop [("t1", sampleTx .declined)] "t1"
    (sampleTx .declined) (by decide)
  exact ⟨h.1 _ 7 (some 50) (by decide), h.2.1 _ 7 none (by decide),
    h.2.2 _ "r9" 7 none none (by decide)⟩

/-- C2 as stated is false: with an arbitrary caller-supplied amount and an
issuer that approves it, a capture of 200 against a 100 authorization leaves
`capturedAmount = 200 > amount = 100`. -/
theorem claim2_counterexample :
    findById (runOps [] badOps) "t1" = some badTx ∧ ¬ TxInvariant badTx := by
  constructor
  · decide
  · decide

/-- C2 amended: under sanitized inputs — nonnegative authorize amounts, and
an issuer that only approves captures within the authorized amount and
refunds within the remaining refundable balance (`runOkB`) — every stored
transaction satisfies `0 ≤ capturedAmount ≤ amount` and
`0 ≤ refundedAmount ≤ capturedAmount` after every operation sequence. -/
theorem claim2_invariants_sanitized (store : Store) (ops : List ServiceOp)
    (hok : StoreOk store) (hrun : runOkB store ops = true) :
    ∀ p ∈ runOps store ops, TxInvariant p.2 :=
  fun p hp => (storeOk_run store ops hok hrun p hp).1

/-- Witness for the amended C2 on a concrete authorize/capture/refund run. -/
theorem claim2_witness :
    StoreOk ([] : Store) ∧ runOkB [] demoOps = true ∧
      ∀ p ∈ runOps [] demoOps, TxInvariant p.2 :=
  ⟨by decide, by decide, claim2_invariants_sanitized [] demoOps (by decide) (by decide)⟩

/-- C3: on a `captured` transaction, a successful refund adds the per-call
amount (defaulting to the remaining refundable balance) to `refundedAmount`,
and the status becomes `refunded` exactly when the new refunded amount has
reached `capturedAmount`, otherwise it remains `captured`. -/
theorem claim3_refund_accumulates (store : Store) (id : String)
    (tx : PaymentTransaction) (amt : Option Int) (reason : Option String)
    (refundId : String) (now : Int) (e : Option String)
    (hfind : findById store id = some tx) (hst : tx.status = .captured) :
    (refund (.ok ⟨true, e⟩) refundId now store ⟨id, amt, reason⟩).response.refundedAmount =
        tx.refundedAmount + amt.getD (tx.capturedAmount - tx.refundedAmount)
    ∧ ((refund (.ok ⟨true, e⟩) refundId now store ⟨id, amt, reason⟩).response.status = .refunded ↔
        tx.capturedAmount ≤ tx.refundedAmount + amt.getD (tx.capturedAmount - tx.refundedAmount))
    ∧ ((refund (.ok ⟨true, e⟩) refundId now store ⟨id, amt, reason⟩).response.status = .captured ↔
        ¬ tx.capturedAmount ≤ tx.refundedAmount + amt.getD (tx.capturedAmount - tx.refundedAmount))
    ∧ findById (refund (.ok ⟨true, e⟩) refundId now store ⟨id, amt, reason⟩).store id =
        some { tx with
          status :=
            if tx.capturedAmount ≤
                tx.refundedAmount + amt.getD (tx.capturedAmount - tx.refundedAmount) then
              .refunded
            else .captured,
          refundedAmount := tx.refundedAmount + amt.getD (tx.capturedAmount - tx.refundedAmount),
          updatedAt := now } := by
  by_cases hfull :
      tx.capturedAmount ≤ tx.refundedAmount + amt.getD (tx.capturedAmount - tx.refundedAmount)
  · refine ⟨?_, ?_, ?_, ?_⟩ <;>
      simp [refund, hfind, hst, hfull, findById_storeSet_self]
  · refine ⟨?_, ?_, ?_, ?_⟩ <;>
      simp [refund, hfind, hst, hfull, findById_storeSet_self]

/-- Witness for C3: partial refund of 40 on a 100 capture with 40 already
refunded stays `captured`; the defaulted refund of the remaining 60 would
reach 100. -/
theorem claim3_witness :
    ((refund (.ok ⟨true, none⟩) "r1" 9 [("t1", sampleTx .captured)]
        ⟨"t1", some 40, none⟩).response.refundedAmount = 80)
    ∧ ((refund (.ok ⟨true, none⟩) "r1" 9 [("t1", sampleTx .captured)]
        ⟨"t1", some 40, none⟩).response.status = .captured)
    ∧ ((refund (.ok ⟨true, none⟩) "r2" 9 [("t1", sampleTx .captured)]
        ⟨"t1", none, none⟩).response.refundedAmount = 100)
    ∧ ((refund (.ok ⟨true, none⟩) "r2" 9 [("t1", sampleTx .captured)]
        ⟨"t1", none, none⟩).response.status = .refunded) := by
  have h1 := claim3_refund_accumulates [("t1", sampleTx .captured)] "t1"
    (sampleTx .captured) (some 40) none "r1" 9 none (by decide) (by decide)
  have h2 := claim3_refund_accumulates [("t1", sampleTx .captured)] "t1"
    (sampleTx .captured) none none "r2" 9 none (by decide) (by decide)
  refine ⟨?_, ?_, ?_, ?_⟩
  · rw [h1.1]; decide
  · rw [h1.2.2.1.mpr (by decide)]
  · rw [h2.1]; decide
  · rw [h2.2.1.mpr (by decide)]

/-- C7: when the issuer refund fails (unsuccessful response or thrown call),
the store is returned unchanged, the result is a `failed` response keeping
the prior `refundedAmount`, and no `payment.refunded` event is raised (the
single issuer refund call is the only effect). -/
theorem claim7_refund_failure_no_mutation (store : Store) (id : String)
    (tx : PaymentTransaction) (amt : Option Int) (reason : Option String)
    (refundId : String) (now : Int) (outcome : ClientOutcome BsimRefundResponse)
    (hfind : findById store id = some tx) (hst : tx.status = .captured)
    (hfail : refundOk outcome = false) :
    refund outcome refundId now store ⟨id, amt, reason⟩ =
      ⟨⟨id, refundId, .failed, tx.refundedAmount, now⟩, store,
        [.refundCall ⟨tx.authorizationCode.getD "",
          amt.getD (tx.capturedAmount - tx.refundedAmount)⟩], []⟩ := by
  cases outcome with
  | ok r =>
      have hr : r.success = false := by simpa [refundOk] using hfail
      simp [refund, hfind, hst, hr]
  | thrown msg => simp [refund, hfind, hst]

/-- Witness for C7 with a declining issuer on a captured transaction. -/
theorem claim7_witness :
    refund (.ok ⟨false, some "Refund amount exceeds captured amount"⟩) "r1" 9
        [("t1", sampleTx .captured)] ⟨"t1", some 70, none⟩ =
      ⟨⟨"t1", "r1", .failed, 40, 9⟩, [("t1", sampleTx .captured)],
        [.refundCall ⟨"AUTH-1", 70⟩], []⟩ :=
  claim7_refund_failure_no_mutation [("t1", sampleTx .captured)] "t1"
    (sampleTx .captured) (some 70) none "r1" 9
    (.ok ⟨false, some "Refund amount exceeds captured amount"⟩)
    (by decide) (by decide) (by decide)

/-- C4 as stated is false: when the issuer gateway keeps failing with 500s,
the real client converts the exhausted retry error into `approved:false`, so
`authorize` records status `declined` (not `failed`), the decline reason is
the gateway error message (not `"Network error"`), and the raised event is
`payment.declined` (not `payment.failed`). -/
theorem claim4_counterexample :
    claim4CexRun.response.status = .declined
    ∧ claim4CexRun.response.status ≠ .failed
    ∧ claim4CexRun.events = [.paymentDeclined]
    ∧ claim4CexRun.response.declineReason =
        some "BSIM request failed: 500 Internal server error" := by
  refine ⟨?_, ?_, ?_, ?_⟩ <;> decide

/-- C4 amended: the `failed`/`"Network error"`/`payment.failed` outcome is
produced only when the client call itself throws — which the real
`BsimClient.authorize` never does.  End to end, a gateway request that fails
(5xx/network, after retries) surfaces as status `declined` with the gateway
error message as decline reason and a `payment.declined` event, exactly like
an explicit issuer decline, which keeps the issuer-supplied reason. -/
theorem claim4_amended_failure_paths :
    (∀ (decode : String → Option JwtPayload) (dflt : String) (hours : Int)
        (txId : String) (now : Int) (store : Store)
        (request : PaymentAuthorizationRequest) (msg : String),
        (authorize decode dflt hours txId now (.thrown msg) store request).response.status = .failed
        ∧ (authorize decode dflt hours txId now (.thrown msg) store request).response.declineReason =
            some "Network error"
        ∧ (authorize decode dflt hours txId now (.thrown msg) store request).events =
            [.paymentFailed])
    ∧ (∀ (decode : String → Option JwtPayload) (dflt : String) (hours : Int)
        (txId : String) (now : Int) (store : Store)
        (request : PaymentAuthorizationRequest)
        (outcomes : Nat → AttemptOutcome BsimRawAuthResponse)
        (mr b : Nat) (e : JsError),
        (makeRequest outcomes mr b).result = .error e →
        (authorizeEndToEnd decode dflt hours txId now outcomes mr b store request).response.status =
            .declined
        ∧ (authorizeEndToEnd decode dflt hours txId now outcomes mr b store request).response.declineReason =
            some e.message
        ∧ (authorizeEndToEnd decode dflt hours txId now outcomes mr b store request).events =
            [.paymentDeclined])
    ∧ (∀ (decode : String → Option JwtPayload) (dflt : String) (hours : Int)
        (txId : String) (now : Int) (store : Store)
        (request : PaymentAuthorizationRequest) (resp : BsimAuthorizationResponse),
        resp.approved = false →
        (authorize decode dflt hours txId now (.ok resp) store request).response.status = .declined
        ∧ (authorize decode dflt hours txId now (.ok resp) store request).response.declineReason =
            resp.declineReason
        ∧ (authorize decode dflt hours txId now (.ok resp) store request).events =
            [.paymentDeclined]) := by
  refine ⟨?_, ?_, ?_⟩
  · intro decode dflt hours txId now store request msg
    refine ⟨?_, ?_, ?_⟩ <;> simp [authorize]
  · intro decode dflt hours txId now store request outcomes mr b e herr
    have hclient : clientAuthorize outcomes mr b =
        { approved := false, authorizationCode := none,
          declineReason := some e.message, availableCredit := none } := by
      unfold clientAuthorize
      rw [herr]
    refine ⟨?_, ?_, ?_⟩ <;>
      simp [authorizeEndToEnd, hclient, authorize]
  · intro decode dflt hours txId now store request resp hap
    refine ⟨?_, ?_, ?_⟩ <;> simp [authorize, hap]

/-- Witness for the amended C4: a thrown client call, an exhausted-retry
end-to-end failure, and an explicit decline, each at concrete inputs. -/
theorem claim4_witness :
    ((authorize (fun _ => none) "bsim" 168 "t1" 0 (.thrown "boom") []
        demoAuthRequest).response.status = .failed)
    ∧ ((authorizeEndToEnd (fun _ => none) "bsim" 168 "t1" 0
        (fun _ => .httpError 503 "unavailable") 2 500 [] demoAuthRequest).response.status = .declined)
    ∧ ((authorize (fun _ => none) "bsim" 168 "t1" 0
        (.ok { approved := false, authorizationCode := none,
               declineReason := some "Invalid card token", availableCredit := none })
        [] demoAuthRequest).response.status = .declined) := by
  have h := claim4_amended_failure_paths
  refine ⟨(h.1 (fun _ => none) "bsim" 168 "t1" 0 [] demoAuthRequest "boom").1, ?_, ?_⟩
  · exact (h.2.1 (fun _ => none) "bsim" 168 "t1" 0 [] demoAuthRequest
      (fun _ => .httpError 503 "unavailable") 2 500
      (mkHttpError 503 "unavailable") rfl).1
  · exact (h.2.2 (fun _ => none) "bsim" 168 "t1" 0 [] demoAuthRequest
      { approved := false, authorizationCode := none,
        declineReason := some "Invalid card token", availableCredit := none }
      rfl).1

/-- C10 as stated is false: a transaction that ends `declined` still carries
an expiry timestamp (`now + 168h` computed before the issuer call). -/
theorem claim10_counterexample :
    findById claim10CexRun.store "t1" = some claim10CexTx
    ∧ claim10CexTx.status = .declined
    ∧ claim10CexTx.expiresAt = some 604800000 := by
  refine ⟨by decide, by decide, by decide⟩

/-- C10 amended: `expiresAt` is computed once, at transaction creation,
before the issuer call, as `now + expiryHours` in milliseconds (configured
lifetime; default 168 hours), and is therefore carried by every stored
transaction — authorized, declined and failed alike. -/
theorem claim10_expiry_set_at_creation (decode : String → Option JwtPayload)
    (dflt : String) (hours : Int) (txId : String) (now : Int)
    (outcome : ClientOutcome BsimAuthorizationResponse) (store : Store)
    (request : PaymentAuthorizationRequest) :
    (∃ tx, findById (authorize decode dflt hours txId now outcome store request).store txId =
        some tx ∧ tx.expiresAt = some (now + hours * 3600000))
    ∧ defaultAuthorizationExpiryHours = 168 := by
  constructor
  · unfold authorize
    cases outcome with
    | ok r =>
        by_cases hap : r.approved = true
        · simp only [hap, if_true]
          exact ⟨_, findById_storeSet_self _ _ _, rfl⟩
        · simp only [hap]
          exact ⟨_, findById_storeSet_self _ _ _, rfl⟩
    | thrown msg => exact ⟨_, findById_storeSet_self _ _ _, rfl⟩
  · rfl

/-- C9 as stated is false: each raise draws a fresh payload uuid, so raising
the same logical transaction event twice enqueues two distinct queue entries
whose payloads agree on everything except the fresh id. -/
theorem claim9_counterexample :
    claim9Second.1.length = 2
    ∧ claim9Second.1.map (fun e => e.2.payload.type) =
        [.paymentRefunded, .paymentRefunded]
    ∧ claim9Second.1.map (fun e => e.2.payload.data) = [claim9Data, claim9Data]
    ∧ claim9Second.1.map (fun e => e.1) = ["u0", "u1"] := by
  refine ⟨?_, ?_, ?_, ?_⟩ <;> decide

/-- C9 amended: jobs are enqueued keyed by the payload id, and BullMQ ignores
an `add` for an id already present — so enqueueing the *same payload* twice
is idempotent and the queue never accumulates duplicate ids; but each *raise*
of a logical event builds a payload with a fresh uuid, so re-raising the same
logical event does create a second queue entry (per-logical-event
deduplication is delegated to the webhook consumer). -/
theorem claim9_enqueue_keyed_by_payload_id :
    (∀ (q : WebhookQueue) (jd1 jd2 : WebhookJobData),
        jd1.payload.id = jd2.payload.id →
        enqueueWebhook (enqueueWebhook q jd1) jd2 = enqueueWebhook q jd1)
    ∧ (∀ (q : WebhookQueue) (jd : WebhookJobData),
        (q.map Prod.fst).Nodup → ((enqueueWebhook q jd).map Prod.fst).Nodup) := by
  constructor
  · intro q jd1 jd2 hid
    unfold enqueueWebhook addJob
    rw [← hid]
    by_cases h : q.any (fun e => e.1 = jd1.payload.id)
    · simp [h]
    · simp only [h, if_false, Bool.not_eq_true] at *
      have h2 : (q ++ [(jd1.payload.id, jd1)]).any (fun e => e.1 = jd1.payload.id) = true := by
        simp [List.any_append]
      simp [h, h2]
  · intro q jd hnodup
    unfold enqueueWebhook addJob
    by_cases h : q.any (fun e => e.1 = jd.payload.id)
    · simpa [h] using hnodup
    · have habs : jd.payload.id ∉ q.map Prod.fst := by
        intro hmem
        rcases List.mem_map.mp hmem with ⟨p, hp, hfst⟩
        have : q.any (fun e => e.1 = jd.payload.id) = true :=
          List.any_eq_true.mpr ⟨p, hp, by simp [hfst]⟩
        simp [this] at h
      rw [if_neg h, List.map_append]
      simp [List.nodup_append, hnodup, habs]

/-- Witness for the amended C9: enqueueing the same job twice at concrete
inputs leaves one entry, and id-nodup is preserved. -/
theorem claim9_witness :
    (enqueueWebhook (enqueueWebhook [] claim9Job) claim9Job = enqueueWebhook [] claim9Job)
    ∧ ((enqueueWebhook claim9Second.1 claim9Job).map Prod.fst).Nodup := by
  constructor
  · exact claim9_enqueue_keyed_by_payload_id.1 [] claim9Job claim9Job rfl
  · exact claim9_enqueue_keyed_by_payload_id.2 claim9Second.1 claim9Job (by decide)

theorem expDelays_succ (b attempt r : Nat) :
    (List.range (r + 1)).map (fun k => b * 2 ^ (attempt + k)) =
      b * 2 ^ attempt :: (List.range r).map (fun k => b * 2 ^ (attempt + 1 + k)) := by
  rw [List.range_succ_eq_map, List.map_cons, List.map_map]
  congr 1
  apply List.map_congr_left
  intro k _
  simp only [Function.comp_apply]
  have hexp : attempt + (k + 1) = attempt + 1 + k := by omega
  rw [Nat.succ_eq_add_one, hexp]

theorem makeRequestGo_persistent (outcomes : Nat → AttemptOutcome α) (b : Nat)
    (hfail : ∀ k, isServerFailure (outcomes k)) :
    ∀ (remaining attempt : Nat),
      exceptIsOk (makeRequestGo outcomes b attempt remaining).result = false
      ∧ (makeRequestGo outcomes b attempt remaining).attempts = remaining + 1
      ∧ (makeRequestGo outcomes b attempt remaining).delays =
          (if attempt = 0 then [] else [b * 2 ^ (attempt - 1)]) ++
            (List.range remaining).map (fun k => b * 2 ^ (attempt + k)) := by
  intro remaining
  induction remaining with
  | zero =>
      intro attempt
      have h := hfail attempt
      unfold makeRequestGo
      cases ho : outcomes attempt with
      | success v => rw [ho] at h; cases h
      | httpError status text => simp [exceptIsOk]
      | netError e => simp [exceptIsOk]
  | succ r ih =>
      intro attempt
      have h := hfail attempt
      unfold makeRequestGo
      cases ho : outcomes attempt with
      | success v => rw [ho] at h; cases h
      | httpError status text =>
          rw [ho] at h
          have hcond : 500 ≤ status ∨ isRetryableError (mkHttpError status text) = true :=
            Or.inl h
          simp only [hcond, if_true, or_true, if_pos hcond]
          obtain ⟨ih1, ih2, ih3⟩ := ih (attempt + 1)
          refine ⟨ih1, by omega, ?_⟩
          rw [ih3]
          simp only [Nat.add_eq_zero, Nat.succ_ne_zero, and_false, if_false,
            Nat.add_sub_cancel]
          rw [expDelays_succ]
          simp
      | netError e =>
          rw [ho] at h
          have h' : isRetryableError e = true := h
          simp only [if_pos h']
          obtain ⟨ih1, ih2, ih3⟩ := ih (attempt + 1)
          refine ⟨ih1, by omega, ?_⟩
          rw [ih3]
          simp only [Nat.add_eq_zero, Nat.succ_ne_zero, and_false, if_false,
            Nat.add_sub_cancel]
          rw [expDelays_succ]
          simp

theorem pairwise_lt_expDelays (b n : Nat) (hb : 0 < b) :
    ((List.range n).map (fun k => b * 2 ^ k)).Pairwise (· < ·) := by
  refine List.Pairwise.map _ ?_ (List.pairwise_lt_range n)
  intro i j hij
  exact Nat.mul_lt_mul_of_le_of_lt (Nat.le_refl b) (Nat.pow_lt_pow_right (by omega) hij) hb

/-- C6 as stated is false: a 4xx response is thrown inside the loop's `try`,
re-caught by its own `catch`, and re-classified by `isRetryableError` on the
message text — so a 400 whose body mentions `network` *is* retried (two
attempts, one backoff sleep) instead of propagating immediately. -/
theorem claim6_counterexample :
    (makeRequest claim6CexOutcomes 3 500).attempts = 2
    ∧ (makeRequest claim6CexOutcomes 3 500).delays = [500]
    ∧ (makeRequest claim6CexOutcomes 3 500).result = .ok 7
    ∧ isRetryableError (mkHttpError 400 "network token rejected") = true := by
  refine ⟨rfl, rfl, rfl, by decide⟩

/-- C6 amended: on persistently retry-classified failures (5xx responses or
retryable network errors) the loop makes exactly `maxRetries + 1` attempts
and sleeps `base * 2 ^ (k-1)` before the k-th retry — strictly increasing
when `base > 0` — before giving up; a first-attempt 4xx whose constructed
error message is *not* classified retryable, and any non-retryable
exception, propagate immediately after a single attempt; but a 4xx whose
error text carries a retryable marker (e.g. `network`) is retried. -/
theorem claim6_retry_policy :
    (∀ (α : Type) (outcomes : Nat → AttemptOutcome α) (mr b : Nat),
        (∀ k, isServerFailure (outcomes k)) →
        exceptIsOk (makeRequest outcomes mr b).result = false
        ∧ (makeRequest outcomes mr b).attempts = mr + 1
        ∧ (makeRequest outcomes mr b).delays = (List.range mr).map (fun k => b * 2 ^ k)
        ∧ (0 < b → (makeRequest outcomes mr b).delays.Pairwise (· < ·)))
    ∧ (∀ (α : Type) (outcomes : Nat → AttemptOutcome α) (mr b status : Nat)
        (text : String),
        outcomes 0 = .httpError status text → status < 500 →
        isRetryableError (mkHttpError status text) = false →
        makeRequest outcomes mr b = ⟨.error (mkHttpError status text), 1, []⟩)
    ∧ (∀ (α : Type) (outcomes : Nat → AttemptOutcome α) (mr b : Nat) (e : JsError),
        outcomes 0 = .netError e → isRetryableError e = false →
        makeRequest outcomes mr b = ⟨.error e, 1, []⟩) := by
  refine ⟨?_, ?_, ?_⟩
  · intro α outcomes mr b hfail
    obtain ⟨h1, h2, h3⟩ := makeRequestGo_persistent outcomes b hfail mr 0
    have h3' : (makeRequest outcomes mr b).delays =
        (List.range mr).map (fun k => b * 2 ^ k) := by
      unfold makeRequest
      rw [h3]
      simp
    refine ⟨h1, h2, h3', fun hb => ?_⟩
    rw [h3']
    exact pairwise_lt_expDelays b mr hb
  · intro α outcomes mr b status text ho hlt hret
    have hno5 : ¬ (500 ≤ status ∨ isRetryableError (mkHttpError status text) = true) := by
      rintro (h | h)
      · omega
      · rw [hret] at h; cases h
    unfold makeRequest
    cases mr with
    | zero =>
        unfold makeRequestGo
        rw [ho]
        simp
    | succ r =>
        unfold makeRequestGo
        rw [ho]
        simp only [if_neg hno5]
        simp
  · intro α outcomes mr b e ho hret
    unfold makeRequest
    cases mr with
    | zero =>
        unfold makeRequestGo
        rw [ho]
        simp
    | succ r =>
        unfold makeRequestGo
        rw [ho]
        have hno : ¬ isRetryableError e = true := by rw [hret]; exact Bool.false_ne_true
        simp only [if_neg hno]
        simp

/-- Witness for the amended C6: four failing attempts at `maxRetries = 3`,
`base = 500` with delays `[500, 1000, 2000]`, an immediate 404, and an
immediate non-retryable exception. -/
theorem claim6_witness :
    (exceptIsOk (makeRequest (fun _ => .httpError 500 "oops" : Nat → AttemptOutcome Nat) 3 500).result = false
      ∧ (makeRequest (fun _ => .httpError 500 "oops" : Nat → AttemptOutcome Nat) 3 500).attempts = 4
      ∧ (makeRequest (fun _ => .httpError 500 "oops" : Nat → AttemptOutcome Nat) 3 500).delays = [500, 1000, 2000])
    ∧ makeRequest (fun _ => .httpError 404 "Not Found" : Nat → AttemptOutcome Nat) 3 500 =
        ⟨.error (mkHttpError 404 "Not Found"), 1, []⟩
    ∧ makeRequest (fun _ => .netError ⟨"invalid json body", false⟩ : Nat → AttemptOutcome Nat) 3 500 =
        ⟨.error ⟨"invalid json body", false⟩, 1, []⟩ := by
  obtain ⟨h1, h2, h3, _⟩ :=
    claim6_retry_policy.1 Nat (fun _ => .httpError 500 "oops") 3 500 (fun _ => le_refl 500)
  refine ⟨⟨h1, h2, by rw [h3]; rfl⟩, ?_, ?_⟩
  · exact claim6_retry_policy.2.1 Nat _ 3 500 404 "Not Found" rfl (by omega) (by decide)
  · exact claim6_retry_policy.2.2 Nat _ 3 500 ⟨"invalid json body", false⟩ rfl (by decide)

theorem wsimMatchList_ne_nil (cs run : List Char) (h : wsimMatchList cs = some run) :
    run ≠ [] := by
  unfold wsimMatchList at h
  split at h
  · rename_i rest
    by_cases hemp : (rest.takeWhile wsimCharOk).isEmpty
    · rw [if_pos hemp] at h; cases h
    · rw [if_neg hemp] at h
      by_cases hund : (rest.dropWhile wsimCharOk).head? = some '_'
      · rw [if_pos hund] at h
        injection h with h'
        subst h'
        intro habs
        rw [habs] at hemp
        exact hemp rfl
      · rw [if_neg hund] at h; cases h
  · cases h

theorem wsimMatch_ne_empty (tok b : String) (h : wsimMatch tok = some b) : b ≠ "" := by
  unfold wsimMatch at h
  cases hl : wsimMatchList tok.data with
  | none => rw [hl] at h; cases h
  | some run =>
      rw [hl] at h
      simp at h
      have hne := wsimMatchList_ne_nil tok.data run hl
      intro habs
      apply hne
      have hdata := congrArg String.data (h.trans habs)
      simpa using hdata

theorem wsimMatch_none_of_ctok (tok : String) (h : strStartsWith tok "ctok_" = true) :
    wsimMatch tok = none := by
  unfold strStartsWith at h
  obtain ⟨t, ht⟩ := List.isPrefixOf_iff_prefix.mp h
  have hd : tok.data = 'c' :: 't' :: 'o' :: 'k' :: '_' :: t := by
    rw [← ht]; rfl
  unfold wsimMatch
  rw [hd]
  rfl

theorem prefixMatchLower_ne_wsimBsim_of_ctok (tok : String)
    (h : strStartsWith tok "ctok_" = true) :
    prefixMatchLower tok ≠ some "wsim_bsim_" := by
  intro habs
  unfold strStartsWith at h
  obtain ⟨t, ht⟩ := List.isPrefixOf_iff_prefix.mp h
  simp only [prefixMatchLower] at habs
  by_cases hemp :
      (((tok.data.takeWhile lowerUnderscoreOk).reverse.dropWhile
        (fun c => !(c = '_'))).reverse).isEmpty
  · rw [if_pos hemp] at habs; cases habs
  · rw [if_neg hemp] at habs
    injection habs with habs'
    have hkept :
        ((tok.data.takeWhile lowerUnderscoreOk).reverse.dropWhile
          (fun c => !(c = '_'))).reverse = ("wsim_bsim_" : String).data :=
      congrArg String.data habs'
    have h1 :
        ((tok.data.takeWhile lowerUnderscoreOk).reverse.dropWhile
          (fun c => !(c = '_'))).reverse <+: tok.data.takeWhile lowerUnderscoreOk := by
      have hsuf := List.dropWhile_suffix (l := (tok.data.takeWhile lowerUnderscoreOk).reverse)
        (p := fun c => !(c = '_'))
      have := List.reverse_prefix.mpr hsuf
      simpa using this
    have h2 : tok.data.takeWhile lowerUnderscoreOk <+: tok.data :=
      List.takeWhile_prefix _
    have h3 := (h1.trans h2)
    rw [hkept] at h3
    obtain ⟨t2, ht2⟩ := h3
    have heq : ("wsim_bsim_" : String).data ++ t2 = ("ctok_" : String).data ++ t := by
      rw [ht2, ht]
    simp at heq

theorem splitOnDot_length (cs : List Char) :
    (splitOnDot cs).length = cs.count '.' + 1 := by
  induction cs with
  | nil => rfl
  | cons c cs ih =>
      by_cases h : c = '.'
      · subst h
        simp [splitOnDot, List.count_cons, ih]
      · unfold splitOnDot
        rw [if_neg h]
        cases hrest : splitOnDot cs with
        | nil => rw [hrest] at ih; simp at ih
        | cons seg segs =>
            rw [hrest] at ih
            simp only [List.length_cons] at ih ⊢
            rw [List.count_cons]
            have hne : ¬ ('.' = c) := fun hh => h hh.symm
            simp [beq_iff_eq, h, hne]
            omega

theorem contains_dot_of_split3 (tok a m c : String)
    (h : strSplitDots tok = [a, m, c]) : strContainsDot tok = true := by
  unfold strSplitDots at h
  have hlen : (splitOnDot tok.data).length = 3 := by
    have := congrArg List.length h
    simpa using this
  rw [splitOnDot_length] at hlen
  have hcnt : tok.data.count '.' = 2 := by omega
  have hmem : '.' ∈ tok.data := by
    by_contra hno
    rw [List.count_eq_zero_of_not_mem hno] at hcnt
    cases hcnt
  unfold strContainsDot
  exact List.elem_iff.mpr hmem

theorem analyzeJwtStep_bsimId_some (decode : String → Option JwtPayload)
    (parts : List String) (a1 : TokenAnalysis) (b : String)
    (hb : a1.bsimId = some b) :
    (analyzeJwtStep decode parts a1).bsimId = some b := by
  unfold analyzeJwtStep
  split
  · rename_i head middle last
    cases hdec : decode middle with
    | none => simpa using hb
    | some payload =>
        split <;> simp [hb]
        split <;> rfl
  · exact hb

theorem analyzeJwtStep_claims (decode : String → Option JwtPayload)
    (a m c : String) (a1 : TokenAnalysis) (p : JwtPayload) (b : String)
    (hnone : a1.bsimId = none) (hdec : decode m = some p)
    (hb : p.bsimId = some b) (hbne : b ≠ "") :
    (analyzeJwtStep decode [a, m, c] a1).bsimId = some b := by
  have htruthy : truthyS p.bsimId = true := by simp [truthyS, hb, hbne]
  unfold analyzeJwtStep
  simp only
  cases hdec' : decode m with
  | none => rw [hdec] at hdec'; cases hdec'
  | some payload =>
      rw [hdec] at hdec'
      injection hdec' with hp
      subst hp
      simp only
      split <;> split <;> simp_all

theorem analyzePrefixStep_wsim (tok b : String) (hw : wsimMatch tok = some b) :
    (analyzePrefixStep tok).bsimId = some b := by
  unfold analyzePrefixStep
  rw [hw]

theorem analyzePrefixStep_none (tok : String) (hw : wsimMatch tok = none)
    (hleg : prefixMatchLower tok ≠ some "wsim_bsim_") :
    (analyzePrefixStep tok).bsimId = none := by
  unfold analyzePrefixStep
  rw [hw]
  cases hpm : prefixMatchLower tok with
  | none => rfl
  | some q =>
      have hq : ¬ (q = "wsim_bsim_") := fun hh => hleg (by rw [hpm, hh])
      simp only
      rw [if_neg hq]

theorem analyze_wsim_bsimId (decode : String → Option JwtPayload) (tok b : String)
    (hw : wsimMatch tok = some b) :
    (analyzeCardToken decode tok).bsimId = some b := by
  unfold analyzeCardToken
  exact analyzeJwtStep_bsimId_some decode _ _ b (analyzePrefixStep_wsim tok b hw)

theorem analyze_ctok_jwt_bsimId (decode : String → Option JwtPayload)
    (tok a m c b : String) (p : JwtPayload)
    (hct : strStartsWith tok "ctok_" = true)
    (hsp : strSplitDots tok = [a, m, c])
    (hdec : decode m = some p) (hb : p.bsimId = some b) (hbne : b ≠ "") :
    (analyzeCardToken decode tok).bsimId = some b := by
  have hw := wsimMatch_none_of_ctok tok hct
  have hleg := prefixMatchLower_ne_wsimBsim_of_ctok tok hct
  unfold analyzeCardToken
  rw [hsp]
  exact analyzeJwtStep_claims decode a m c _ p b
    (analyzePrefixStep_none tok hw hleg) hdec hb hbne

/-- C5 as stated is false in the authorize path: `"ctok_a.<base64>.sig"` is a
`ctok_`-prefixed token, yet because it also has three dot-separated segments
whose middle decodes to the JSON claim `bsimId: "newbank"` (the concrete
base64 of that JSON object), `analyzeCardToken`-based routing resolves it to
`"newbank"`, not to the configured default `"bsim"`.  The registry resolver
(`extractBsimIdFromToken`), which checks the `ctok_` rule before the JWT
rule, resolves the very same token to the default. -/
theorem claim5_counterexample :
    strStartsWith "ctok_a.eyJic2ltSWQiOiJuZXdiYW5rIn0.sig" "ctok_" = true
    ∧ resolveBsimId
        (fun s => if s = "eyJic2ltSWQiOiJuZXdiYW5rIn0" then
          some { bsimId := some "newbank", type := none } else none)
        "bsim" "ctok_a.eyJic2ltSWQiOiJuZXdiYW5rIn0.sig" = "newbank"
    ∧ extractBsimIdFromToken
        (fun s => if s = "eyJic2ltSWQiOiJuZXdiYW5rIn0" then
          some { bsimId := some "newbank", type := none } else none)
        "bsim" "ctok_a.eyJic2ltSWQiOiJuZXdiYW5rIn0.sig" = "bsim"
    ∧ ("newbank" : String) ≠ "bsim" := by
  refine ⟨by decide, by decide, by decide, by decide⟩

/-- C5 amended: the `wsim_{issuerId}_` prefix rule wins in both resolvers,
even for tokens that also carry claim-shaped dot segments; the registry
resolver (`BsimRegistry.extractBsimIdFromToken`) sends every `ctok_` token to
the configured default, resolves a three-dot-segment token whose decoded
middle carries a truthy `bsimId` claim to that claim, and falls back to the
default when the segment count is not three or the middle segment fails to
decode; but in the authorize path (`analyzeCardToken`), the JWT claim rule is
not subordinated to the `ctok_` rule, so a `ctok_` token with three
dot-segments and a decodable truthy `bsimId` claim resolves to the claim
instead of the default. -/
theorem claim5_token_routing :
    (∀ (decode : String → Option JwtPayload) (d tok b : String),
        wsimMatch tok = some b →
        extractBsimIdFromToken decode d tok = b)
    ∧ (∀ (decode : String → Option JwtPayload) (d tok b : String),
        wsimMatch tok = some b →
        resolveBsimId decode d tok = b)
    ∧ (∀ (decode : String → Option JwtPayload) (d tok : String),
        strStartsWith tok "ctok_" = true →
        extractBsimIdFromToken decode d tok = d)
    ∧ (∀ (decode : String → Option JwtPayload) (d tok a m c b : String)
        (p : JwtPayload),
        strStartsWith tok "ctok_" = true → strSplitDots tok = [a, m, c] →
        decode m = some p → p.bsimId = some b → b ≠ "" →
        resolveBsimId decode d tok = b)
    ∧ (∀ (decode : String → Option JwtPayload) (d tok a m c b : String)
        (p : JwtPayload),
        wsimMatch tok = none → strStartsWith tok "ctok_" = false →
        strSplitDots tok = [a, m, c] →
        decode m = some p → p.bsimId = some b → b ≠ "" →
        extractBsimIdFromToken decode d tok = b)
    ∧ (∀ (decode : String → Option JwtPayload) (d tok : String),
        wsimMatch tok = none → strStartsWith tok "ctok_" = false →
        (strSplitDots tok).length ≠ 3 →
        extractBsimIdFromToken decode d tok = d)
    ∧ (∀ (decode : String → Option JwtPayload) (d tok a m c : String),
        wsimMatch tok = none → strStartsWith tok "ctok_" = false →
        strSplitDots tok = [a, m, c] → decode m = none →
        extractBsimIdFromToken decode d tok = d) := by
  refine ⟨?_, ?_, ?_, ?_, ?_, ?_, ?_⟩
  · intro decode d tok b hw
    unfold extractBsimIdFromToken
    rw [hw]
  · intro decode d tok b hw
    have h1 := analyze_wsim_bsimId decode tok b hw
    have hb := wsimMatch_ne_empty tok b hw
    unfold resolveBsimId
    rw [h1]
    simp [truthyOr, hb]
  · intro decode d tok hct
    unfold extractBsimIdFromToken
    rw [wsimMatch_none_of_ctok tok hct]
    simp [hct]
  · intro decode d tok a m c b p hct hsp hdec hb hbne
    have h1 := analyze_ctok_jwt_bsimId decode tok a m c b p hct hsp hdec hb hbne
    unfold resolveBsimId
    rw [h1]
    simp [truthyOr, hbne]
  · intro decode d tok a m c b p hw hct hsp hdec hb hbne
    unfold extractBsimIdFromToken
    rw [hw]
    simp only [hct, Bool.false_eq_true, if_false]
    rw [contains_dot_of_split3 tok a m c hsp]
    simp only [if_true]
    rw [hsp]
    simp only
    rw [hdec]
    simp only
    rw [hb]
    simp [hbne]
  · intro decode d tok hw hct hlen
    unfold extractBsimIdFromToken
    rw [hw]
    simp only [hct, Bool.false_eq_true, if_false]
    by_cases hdot : strContainsDot tok = true
    · simp only [hdot, if_true]
      cases hsp : strSplitDots tok with
      | nil => rfl
      | cons x xs =>
          cases xs with
          | nil => rfl
          | cons y ys =>
              cases ys with
              | nil => rfl
              | cons z zs =>
                  cases zs with
                  | cons w ws => rfl
                  | nil =>
                      rw [hsp] at hlen
                      simp at hlen
    · simp [hdot]
  · intro decode d tok a m c hw hct hsp hdec
    unfold extractBsimIdFromToken
    rw [hw]
    simp only [hct, Bool.false_eq_true, if_false]
    rw [contains_dot_of_split3 tok a m c hsp]
    simp only [if_true]
    rw [hsp]
    simp only
    rw [hdec]

/-- Witness for the amended C5 at concrete tokens, including the spec's own
example `wsim_newbank_abc123 -> newbank`. -/
theorem claim5_witness :
    extractBsimIdFromToken (fun _ => none) "bsim" "wsim_newbank_abc123" = "newbank"
    ∧ resolveBsimId (fun _ => none) "bsim" "wsim_newbank_abc123" = "newbank"
    ∧ extractBsimIdFromToken (fun _ => none) "bsim" "ctok_xyz" = "bsim"
    ∧ resolveBsimId
        (fun s => if s = "eyJic2ltSWQiOiJuZXdiYW5rIn0" then
          some { bsimId := some "newbank", type := none } else none)
        "bsim" "ctok_a.eyJic2ltSWQiOiJuZXdiYW5rIn0.sig" = "newbank"
    ∧ extractBsimIdFromToken
        (fun s => if s = "eyJic2ltSWQiOiJuZXdiYW5rIn0" then
          some { bsimId := some "newbank", type := none } else none)
        "bsim" "hdr.eyJic2ltSWQiOiJuZXdiYW5rIn0.sig" = "newbank"
    ∧ extractBsimIdFromToken (fun _ => none) "bsim" "plain_opaque_token" = "bsim"
    ∧ extractBsimIdFromToken (fun _ => none) "bsim" "hdr.garbage.sig" = "bsim" := by
  refine ⟨?_, ?_, ?_, ?_, ?_, ?_, ?_⟩
  · exact claim5_token_routing.1 (fun _ => none) "bsim" _ "newbank" (by decide)
  · exact claim5_token_routing.2.1 (fun _ => none) "bsim" _ "newbank" (by decide)
  · exact claim5_token_routing.2.2.1 (fun _ => none) "bsim" _ (by decide)
  · exact claim5_token_routing.2.2.2.1 _ "bsim" _ "ctok_a"
      "eyJic2ltSWQiOiJuZXdiYW5rIn0" "sig" "newbank"
      { bsimId := some "newbank", type := none } (by decide) (by decide)
      rfl rfl (by decide)
  · exact claim5_token_routing.2.2.2.2.1 _ "bsim" _ "hdr"
      "eyJic2ltSWQiOiJuZXdiYW5rIn0" "sig" "newbank"
      { bsimId := some "newbank", type := none } (by decide) (by decide)
      (by decide) rfl rfl (by decide)
  · exact claim5_token_routing.2.2.2.2.2.1 (fun _ => none) "bsim" _ (by decide)
      (by decide) (by decide)
  · exact claim5_token_routing.2.2.2.2.2.2 (fun _ => none) "bsim" _ "hdr" "garbage"
      "sig" (by decide) (by decide) (by decide) rfl

theorem nodupKeys_eq (store : Store) (h : (store.map Prod.fst).Nodup)
    (a : String) (b c : PaymentTransaction)
    (hb : (a, b) ∈ store) (hc : (a, c) ∈ store) : b = c := by
  induction store with
  | nil => cases hb
  | cons p rest ih =>
      rw [List.map_cons, List.nodup_cons] at h
      rcases List.mem_cons.mp hb with hb1 | hb1
      · rcases List.mem_cons.mp hc with hc1 | hc1
        · rw [← hb1] at hc1
          exact congrArg Prod.snd hc1.symm
        · exfalso
          apply h.1
          rw [← hb1]
          exact List.mem_map.mpr ⟨(a, c), hc1, rfl⟩
      · rcases List.mem_cons.mp hc with hc1 | hc1
        · exfalso
          apply h.1
          rw [← hc1]
          exact List.mem_map.mpr ⟨(a, b), hb1, rfl⟩
        · exact ih h.2 hb1 hc1

theorem expireAuthorization_store_other
    (f : BsimVoidRequest → ClientOutcome BsimVoidResponse) (now : Int)
    (store : Store) (id j : String) (hne : j ≠ id) :
    findById (expireAuthorization f now store id).store j = findById store j := by
  unfold expireAuthorization
  cases hf : findById store id with
  | none => rfl
  | some tx =>
      by_cases hst : tx.status = .authorized
      · simp only [hst, if_true]
        exact findById_storeSet_ne store id j _ hne
      · simp [hst]

theorem expireStep_other (f : BsimVoidRequest → ClientOutcome BsimVoidResponse)
    (now : Int) (acc : Store × List WebhookEventType) (tx : PaymentTransaction)
    (j : String) (hne : j ≠ tx.id) :
    findById (expireStep f now acc tx).1 j = findById acc.1 j :=
  expireAuthorization_store_other f now acc.1 tx.id j hne

theorem expireStep_keep_nonauth (f : BsimVoidRequest → ClientOutcome BsimVoidResponse)
    (now : Int) (acc : Store × List WebhookEventType) (tx u : PaymentTransaction)
    (j : String) (hfind : findById acc.1 j = some u)
    (hst : u.status ≠ .authorized) :
    findById (expireStep f now acc tx).1 j = some u := by
  by_cases hid : j = tx.id
  · unfold expireStep expireAuthorization
    rw [← hid, hfind]
    simp only [hst, if_false]
    exact hfind
  · rw [expireStep_other f now acc tx j hid]
    exact hfind

theorem expireStep_fires (f : BsimVoidRequest → ClientOutcome BsimVoidResponse)
    (now : Int) (acc : Store × List WebhookEventType) (t tx : PaymentTransaction)
    (j : String) (hfind : findById acc.1 j = some tx)
    (hst : tx.status = .authorized) (hid : t.id = j) :
    findById (expireStep f now acc t).1 j =
      some { tx with status := .expired, updatedAt := now }
    ∧ (expireStep f now acc t).2 = acc.2 ++ [.paymentExpired] := by
  unfold expireStep expireAuthorization
  rw [hid, hfind]
  simp only [hst, if_true]
  constructor
  · exact findById_storeSet_self acc.1 j _
  · trivial

theorem foldl_keep_nonauth (f : BsimVoidRequest → ClientOutcome BsimVoidResponse)
    (now : Int) (L : List PaymentTransaction) :
    ∀ (acc : Store × List WebhookEventType) (j : String) (u : PaymentTransaction),
      findById acc.1 j = some u → u.status ≠ .authorized →
      findById (L.foldl (expireStep f now) acc).1 j = some u := by
  induction L with
  | nil =>
      intro acc j u h _
      simpa using h
  | cons t L ih =>
      intro acc j u h hst
      exact ih (expireStep f now acc t) j u
        (expireStep_keep_nonauth f now acc t u j h hst) hst

theorem foldl_keep_other (f : BsimVoidRequest → ClientOutcome BsimVoidResponse)
    (now : Int) (L : List PaymentTransaction) :
    ∀ (acc : Store × List WebhookEventType) (j : String),
      (∀ t ∈ L, t.id ≠ j) →
      findById (L.foldl (expireStep f now) acc).1 j = findById acc.1 j := by
  induction L with
  | nil => intro acc j _; rfl
  | cons t L ih =>
      intro acc j hids
      rw [List.foldl_cons,
        ih (expireStep f now acc t) j (fun t' ht' => hids t' (List.mem_cons_of_mem _ ht')),
        expireStep_other f now acc t j (fun hh => hids t (List.mem_cons_self _ _) (id hh.symm))]

theorem foldl_events_mono (f : BsimVoidRequest → ClientOutcome BsimVoidResponse)
    (now : Int) (L : List PaymentTransaction) :
    ∀ (acc : Store × List WebhookEventType) (e : WebhookEventType),
      e ∈ acc.2 → e ∈ (L.foldl (expireStep f now) acc).2 := by
  induction L with
  | nil => intro acc e h; simpa using h
  | cons t L ih =>
      intro acc e h
      exact ih (expireStep f now acc t) e (List.mem_append_left _ h)

theorem foldl_expires (f : BsimVoidRequest → ClientOutcome BsimVoidResponse)
    (now : Int) (j : String) (tx : PaymentTransaction)
    (hst : tx.status = .authorized) :
    ∀ (L : List PaymentTransaction) (acc : Store × List WebhookEventType),
      (∃ t ∈ L, t.id = j) → findById acc.1 j = some tx →
      findById (L.foldl (expireStep f now) acc).1 j =
        some { tx with status := .expired, updatedAt := now }
      ∧ WebhookEventType.paymentExpired ∈ (L.foldl (expireStep f now) acc).2 := by
  intro L
  induction L with
  | nil =>
      rintro acc ⟨t, ht, _⟩ _
      cases ht
  | cons t L ih =>
      rintro acc ⟨t', ht', hid⟩ hfind
      by_cases hjt : t.id = j
      · obtain ⟨h1, h2⟩ := expireStep_fires f now acc t tx j hfind hst hjt
        rw [List.foldl_cons]
        constructor
        · exact foldl_keep_nonauth f now L (expireStep f now acc t) j _ h1 (by simp)
        · refine foldl_events_mono f now L (expireStep f now acc t) _ ?_
          rw [h2]
          exact List.mem_append_right _ (by simp)
      · rcases List.mem_cons.mp ht' with h | h
        · exfalso; apply hjt; rw [← h]; exact hid
        · rw [List.foldl_cons]
          refine ih (expireStep f now acc t) ⟨t', h, hid⟩ ?_
          rw [expireStep_other f now acc t j (fun hh => hjt hh.symm)]
          exact hfind

theorem mem_expired_of_findById (store : Store) (now : Int) (j : String)
    (tx : PaymentTransaction) (hwf : StoreWF store)
    (hfind : findById store j = some tx)
    (hq : isExpiredAuthorized now tx = true) :
    ∃ t ∈ getExpiredAuthorizations store now, t.id = j := by
  have hmem := mem_of_findById store j tx hfind
  have hid : tx.id = j := hwf.2 (j, tx) hmem
  refine ⟨tx, ?_, hid⟩
  unfold getExpiredAuthorizations
  exact List.mem_filter.mpr ⟨List.mem_map.mpr ⟨(j, tx), hmem, rfl⟩, hq⟩

theorem expired_ids_ne (store : Store) (now : Int) (j : String)
    (tx : PaymentTransaction) (hwf : StoreWF store)
    (hfind : findById store j = some tx)
    (hq : isExpiredAuthorized now tx = false) :
    ∀ t ∈ getExpiredAuthorizations store now, t.id ≠ j := by
  intro t ht hid
  unfold getExpiredAuthorizations at ht
  obtain ⟨hmem, hqt⟩ := List.mem_filter.mp ht
  obtain ⟨p, hp, hsnd⟩ := List.mem_map.mp hmem
  have hkey : p.1 = t.id := by
    rw [← hsnd]
    exact (hwf.2 p hp).symm
  have hpj : p = (j, t) := by
    cases p with
    | mk x y =>
        simp only at hsnd hkey
        subst hsnd
        rw [hkey, hid]
  have hteq : t = tx :=
    nodupKeys_eq store hwf.1 j t tx (hpj ▸ hp) (mem_of_findById store j tx hfind)
  rw [hteq, hq] at hqt
  cases hqt

/-- C8: the expiry subsystem's scan only ever selects transactions that are
`authorized` with a due expiry stamp; a tick leaves every other stored
transaction untouched (in particular `captured`, `voided` and
already-`expired` ones); every qualifying transaction is transitioned to
`expired` and a `payment.expired` event raised, regardless of the issuer
void outcome (the best-effort void's result — including a thrown call — is
ignored); and `expireAuthorization` itself is a strict no-op on a
transaction that is not `authorized`. -/
theorem claim8_expiry_subsystem (f : BsimVoidRequest → ClientOutcome BsimVoidResponse)
    (now : Int) (store : Store) (j : String) (tx : PaymentTransaction)
    (hwf : StoreWF store) (hfind : findById store j = some tx) :
    (∀ t ∈ getExpiredAuthorizations store now,
        t.status = .authorized ∧ ∃ e, t.expiresAt = some e ∧ e ≤ now)
    ∧ (isExpiredAuthorized now tx = false →
        findById (monitorTick f now store).1 j = some tx)
    ∧ (isExpiredAuthorized now tx = true →
        findById (monitorTick f now store).1 j =
          some { tx with status := .expired, updatedAt := now }
        ∧ WebhookEventType.paymentExpired ∈ (monitorTick f now store).2)
    ∧ (tx.status ≠ .authorized →
        expireAuthorization f now store j = ⟨store, [], []⟩)
    ∧ (∀ g, monitorTick f now store = monitorTick g now store) := by
  refine ⟨?_, ?_, ?_, ?_, fun g => rfl⟩
  · intro t ht
    unfold getExpiredAuthorizations at ht
    obtain ⟨hmem, hq⟩ := List.mem_filter.mp ht
    unfold isExpiredAuthorized at hq
    rw [Bool.and_eq_true] at hq
    constructor
    · simpa using hq.1
    · cases he : t.expiresAt with
      | none => rw [he] at hq; cases hq.2
      | some e =>
          refine ⟨e, rfl, ?_⟩
          rw [he] at hq
          simpa using hq.2
  · intro hnq
    unfold monitorTick
    rw [foldl_keep_other f now _ (store, []) j
      (expired_ids_ne store now j tx hwf hfind hnq)]
    exact hfind
  · intro hq
    have hst : tx.status = .authorized := by
      unfold isExpiredAuthorized at hq
      rw [Bool.and_eq_true] at hq
      simpa using hq.1
    unfold monitorTick
    exact foldl_expires f now j tx hst _ (store, [])
      (mem_expired_of_findById store now j tx hwf hfind hq) hfind
  · intro hst
    simp [expireAuthorization, hfind, hst]

/-- Witness for C8 on a concrete store, with an issuer whose void call
throws: the due authorization still expires and raises `payment.expired`,
while the captured transaction is untouched and skipped. -/
theorem claim8_witness :
    (findById (monitorTick (fun _ => .thrown "bsim down") 10 claim8Store).1 "t2" =
        some claim8CapturedTx)
    ∧ (findById (monitorTick (fun _ => .thrown "bsim down") 10 claim8Store).1 "t1" =
        some { claim8AuthTx with status := .expired, updatedAt := 10 })
    ∧ WebhookEventType.paymentExpired ∈
        (monitorTick (fun _ => .thrown "bsim down") 10 claim8Store).2
    ∧ (expireAuthorization (fun _ => .thrown "bsim down") 10 claim8Store "t2" =
        ⟨claim8Store, [], []⟩) := by
  have h1 := claim8_expiry_subsystem (fun _ => .thrown "bsim down") 10 claim8Store
    "t2" claim8CapturedTx (by decide) (by decide)
  have h2 := claim8_expiry_subsystem (fun _ => .thrown "bsim down") 10 claim8Store
    "t1" claim8AuthTx (by decide) (by decide)
  exact ⟨h1.2.1 (by decide), (h2.2.2.1 (by decide)).1, (h2.2.2.1 (by decide)).2,
    h1.2.2.2.1 (by decide)⟩

end NSim
